import Mathlib

/-!
Verification development for the sofaload load generator (src/src/h2load.cc).

The C++ core is shallowly embedded: each C++ function that the claims touch
is translated into a Lean function over explicit state.  Machine integers
(`size_t`, `uint64_t`, `int`) are modelled as `Nat`/`Int`; the code never
wraps on the modelled paths because every decrement is guarded by a zero
test, so no explicit `% 2^w` is needed.  `std::chrono` time points are
modelled as `Nat` (0 = the epoch-zero value, matching `recorded`).
External collaborators (sockets, TLS, libev, the protocol sessions) are
black boxes: their outcomes enter as boolean parameters/oracles, exactly at
the call sites where the C++ consults them.
-/

namespace h2load

/-- `enum class Phase` (worker lifecycle; h2load.cc uses the four phases). -/
inductive Phase where
  | INITIAL_IDLE
  | WARM_UP
  | MAIN_DURATION
  | DURATION_OVER
deriving DecidableEq, Repr

/-- `RequestStat`: per-request timestamps and status (subset the core writes:
`request_time`, `stream_close_time`, `status`, `completed`). -/
structure RequestStat where
  request_time : Nat
  stream_close_time : Nat
  status : Nat
  completed : Bool
deriving DecidableEq, Repr

/-- `Stream::Stream() : req_stat{}, status_success(-1)` (h2load.cc:114). -/
structure Stream where
  req_stat : RequestStat
  status_success : Int
deriving DecidableEq, Repr

def streamInit : Stream :=
  { req_stat := { request_time := 0, stream_close_time := 0, status := 0, completed := false },
    status_success := -1 }

/-- `Stats` (h2load.cc:108-112): request counters plus the HTTP and BOLT
status-code bucket arrays (modelled as dense index functions). -/
structure Stats where
  req_started : Nat
  req_done : Nat
  req_success : Nat
  req_status_success : Nat
  req_failed : Nat
  req_error : Nat
  req_timedout : Nat
  status : Nat → Nat
  sofarpcStatus : Nat → Nat

def statsInit : Stats :=
  { req_started := 0, req_done := 0, req_success := 0, req_status_success := 0,
    req_failed := 0, req_error := 0, req_timedout := 0,
    status := fun _ => 0, sofarpcStatus := fun _ => 0 }

/-- `ClientStat`: time points (0 = not recorded) and `req_success`. -/
structure ClientStat where
  client_start_time : Nat
  client_end_time : Nat
  connect_start_time : Nat
  connect_time : Nat
  ttfb : Nat
  req_success : Nat
deriving DecidableEq, Repr

def clientStatInit : ClientStat :=
  { client_start_time := 0, client_end_time := 0, connect_start_time := 0,
    connect_time := 0, ttfb := 0, req_success := 0 }

/-- The per-`Client` mutable state the claims touch.  `streams` is the
`stream_id -> Stream` map as an association list (newest binding first).
`sessionPresent` models `session != nullptr`; `sessionTerminated` is the
observable effect of `terminate_session()` on the black-box session. -/
structure ClientState where
  streams : List (Int × Stream)
  cstat : ClientStat
  req_inflight : Nat
  req_started : Nat
  req_done : Nat
  state_connected : Bool
  sessionPresent : Bool
  sessionTerminated : Bool
  new_connection_requested : Bool
  final : Bool
deriving DecidableEq, Repr

/-- `Client::Client` (h2load.cc:269-291): fresh client. -/
def clientInit : ClientState :=
  { streams := [], cstat := clientStatInit, req_inflight := 0, req_started := 0,
    req_done := 0, state_connected := false, sessionPresent := false,
    sessionTerminated := false, new_connection_requested := false, final := false }

/-- The `Config` fields the modelled paths read.  Timeout doubles are
modelled by their only consumed property (`> 0.`). -/
structure Config where
  nreqs : Nat
  nclients : Nat
  nthreads : Nat
  max_concurrent_streams : Nat
  rate : Nat
  duration : Nat
  warm_up_time : Nat
  qps : Nat
  conn_active_timeout_pos : Bool
  conn_inactivity_timeout_pos : Bool
deriving DecidableEq, Repr

/-- `Config::is_qps_mode` (h2load.cc:99). -/
def Config.is_qps_mode (c : Config) : Bool := c.qps != 0

/-- `Config::is_rate_mode` (h2load.cc:100). -/
def Config.is_rate_mode (c : Config) : Bool := c.rate != 0

/-- `Config::is_timing_based_mode` (h2load.cc:101). -/
def Config.is_timing_based_mode (c : Config) : Bool := decide (0 < c.duration)

/-- The worker-plus-globals state: `Worker` fields the claims touch, the
two process-wide atomics, and the ordered client table.  A single worker is
modelled; within a worker all callbacks are sequential. -/
structure Sys where
  current_phase : Phase
  stats : Stats
  rtts : List Nat
  rtt_min : Nat
  rtt_max : Nat
  req_stats : List RequestStat
  client_stats : List ClientStat
  qpsLeft : Nat
  clientsBlockedDueToQps : List Nat
  qps_counts : List Nat
  qps_count_index : Nat
  total_req_left : Nat
  total_req_send : Nat
  clients : List ClientState

/-- The worker's client table lookup (`worker->clients[i]`, defaulting for
out-of-range ghosts). -/
def clientOf (s : Sys) (i : Nat) : ClientState := s.clients.getD i clientInit

def setClientAt (s : Sys) (i : Nat) (c : ClientState) : Sys :=
  { s with clients := s.clients.set i c }

/-- `recorded` (h2load.cc:71-73): a time point is recorded iff non-zero. -/
def recorded (t : Nat) : Bool := t != 0

/-- `Client::record_client_start_time` (h2load.cc:1099-1107): write-once. -/
def record_client_start_time (now : Nat) (cs : ClientStat) : ClientStat :=
  if recorded cs.client_start_time then cs
  else { cs with client_start_time := now }

/-- `Client::record_client_end_time` (h2load.cc:1109-1113): overwritten. -/
def record_client_end_time (now : Nat) (cs : ClientStat) : ClientStat :=
  { cs with client_end_time := now }

/-- `Client::clear_connect_times` (h2load.cc:1093-1097). -/
def clear_connect_times (cs : ClientStat) : ClientStat :=
  { cs with connect_start_time := 0, connect_time := 0, ttfb := 0 }

/-- `Client::record_connect_start_time` (h2load.cc:1077-1079). -/
def record_connect_start_time (now : Nat) (cs : ClientStat) : ClientStat :=
  { cs with connect_start_time := now }

/-- Tail of `Client::submit_request` (h2load.cc:484-503), after the pacing
gate: `total_req_send++`, the black-box `session->submit_request()` call
(`ok i` is its success), then the `MAIN_DURATION`-only counter updates.
The `conn_active_watcher` arm is timer machinery, not modelled state. -/
def submit_request_rest (ok : Nat → Bool) (i : Nat) (s : Sys) : Int × Sys :=
  let s1 := { s with total_req_send := s.total_req_send + 1 }
  let c := clientOf s1 i
  if c.sessionPresent && !(ok i) then ((-1 : Int), s1)
  else if s1.current_phase ≠ Phase.MAIN_DURATION then ((0 : Int), s1)
  else
    ((0 : Int),
     { s1 with
       stats := { s1.stats with req_started := s1.stats.req_started + 1 },
       clients := s1.clients.set i
         { c with req_started := c.req_started + 1, req_inflight := c.req_inflight + 1 } })

/-- `Client::submit_request` (h2load.cc:467-503).  QPS mode: a zero budget
enqueues the client on `clientsBlockedDueToQps` (push_back) and returns 0;
otherwise one token is consumed.  Non-QPS: an exhausted `total_req_left`
returns -1, otherwise it is decremented (the post-decrement re-check at
line 480 cannot fire sequentially because of the line 476 guard). -/
def submit_request (cfg : Config) (ok : Nat → Bool) (i : Nat) (s : Sys) : Int × Sys :=
  if cfg.is_qps_mode then
    if s.qpsLeft = 0 then
      ((0 : Int), { s with clientsBlockedDueToQps := s.clientsBlockedDueToQps ++ [i] })
    else
      submit_request_rest ok i { s with qpsLeft := s.qpsLeft - 1 }
  else
    if s.total_req_left = 0 then ((-1 : Int), s)
    else submit_request_rest ok i { s with total_req_left := s.total_req_left - 1 }

/-- Association-list erase, mirroring `streams.erase(stream_id)`. -/
def mapErase (m : List (Int × Stream)) (k : Int) : List (Int × Stream) :=
  m.filter (fun p => p.1 != k)

/-- Association-list assign, mirroring `streams[id] = ...` / in-place
iterator mutation. -/
def mapAssign (m : List (Int × Stream)) (k : Int) (v : Stream) : List (Int × Stream) :=
  (k, v) :: mapErase m k

/-- `Client::process_request_failure` (h2load.cc:535-540): outside
`MAIN_DURATION` it breaks the loop (no modelled state), inside it does
nothing. -/
def process_request_failure (s : Sys) : Sys := s

/-- `Client::terminate_session` (h2load.cc:603-607): `session->terminate()`
on the black-box session plus `signal_write` (watcher, unmodelled). -/
def terminate_session (i : Nat) (s : Sys) : Sys :=
  setClientAt s i { clientOf s i with sessionTerminated := true }

/-- Tail of `Client::on_stream_close` (h2load.cc:742-753): erase the
stream, terminate when `total_req_left` hit zero, else submit one
replacement when not `final`. -/
def stream_close_rest (cfg : Config) (ok : Nat → Bool) (i : Nat) (sid : Int)
    (fin : Bool) (s : Sys) : Sys :=
  let c := clientOf s i
  let s1 := setClientAt s i { c with streams := mapErase c.streams sid }
  if s1.total_req_left = 0 then terminate_session i s1
  else if !fin then
    let r := submit_request cfg ok i s1
    if r.1 ≠ 0 then process_request_failure r.2 else r.2
  else s1

/-- `Client::on_stream_close` (h2load.cc:704-754).  In `MAIN_DURATION`:
floor-decrement `req_inflight`; a missing stream id returns immediately
(`get_req_stat` null, h2load.cc:756-763); otherwise stamp the close time,
route the success/failure counters, bump `req_done`, record the RTT
(`stream_close_time - request_time` in microseconds, here `now` minus the
request time), and fall through to the erase/terminate/replace tail. -/
def on_stream_close (cfg : Config) (ok : Nat → Bool) (now : Nat) (i : Nat)
    (sid : Int) (success fin : Bool) (s : Sys) : Sys :=
  if s.current_phase = Phase.MAIN_DURATION then
    let c0 := clientOf s i
    let c1 := if 0 < c0.req_inflight then { c0 with req_inflight := c0.req_inflight - 1 } else c0
    match c1.streams.lookup sid with
    | none => setClientAt s i c1
    | some st =>
      let rs : RequestStat := { st.req_stat with stream_close_time := now }
      let stA :=
        if success then
          let st2 := { s.stats with req_success := s.stats.req_success + 1 }
          if st.status_success = 1 then
            { st2 with req_status_success := st2.req_status_success + 1 }
          else
            { st2 with req_failed := st2.req_failed + 1 }
        else
          { s.stats with req_failed := s.stats.req_failed + 1,
                         req_error := s.stats.req_error + 1 }
      let c2 :=
        if success then
          { c1 with cstat := { c1.cstat with req_success := c1.cstat.req_success + 1 } }
        else c1
      let rtt := now - st.req_stat.request_time
      let s1 :=
        { s with
          stats := { stA with req_done := stA.req_done + 1 },
          req_stats := if success then s.req_stats ++ [{ rs with completed := true }] else s.req_stats,
          clients := s.clients.set i { c2 with req_done := c2.req_done + 1 },
          rtts := s.rtts ++ [rtt],
          rtt_min := min s.rtt_min rtt,
          rtt_max := max s.rtt_max rtt }
      stream_close_rest cfg ok i sid fin s1
  else
    stream_close_rest cfg ok i sid fin s

/-- `Client::on_request` (h2load.cc:609): `streams[stream_id] = Stream()`. -/
def on_request (i : Nat) (sid : Int) (s : Sys) : Sys :=
  let c := clientOf s i
  setClientAt s i { c with streams := mapAssign c.streams sid streamInit }

/-- The digit loop of `Client::on_header` (h2load.cc:629-641): consume
leading ASCII digits; crossing 999 sets `status_success = 0` and returns
early (`none`); a non-digit stops the parse. -/
def parse_status_value : List Nat → Nat → Option Nat
  | [], st => some st
  | b :: rest, st =>
    if 48 ≤ b ∧ b ≤ 57 then
      let st1 := st * 10 + (b - 48)
      if st1 > 999 then none else parse_status_value rest st1
    else some st

/-- `Client::on_header` (h2load.cc:611-657).  `isStatus` models
`namelen == 7 && streq_l(":status", ...)`; `value` is the header value
bytes.  Outside `MAIN_DURATION` the stream is optimistically marked
successful. -/
def on_header (i : Nat) (sid : Int) (isStatus : Bool) (value : List Nat) (s : Sys) : Sys :=
  let c := clientOf s i
  match c.streams.lookup sid with
  | none => s
  | some st =>
    if s.current_phase ≠ Phase.MAIN_DURATION then
      setClientAt s i { c with streams := mapAssign c.streams sid { st with status_success := 1 } }
    else if st.status_success = -1 ∧ isStatus then
      match parse_status_value value 0 with
      | none =>
        setClientAt s i { c with streams := mapAssign c.streams sid { st with status_success := 0 } }
      | some status =>
        let st1 := { st with req_stat := { st.req_stat with status := status } }
        if 200 ≤ status ∧ status < 300 then
          { setClientAt s i { c with streams := mapAssign c.streams sid { st1 with status_success := 1 } } with
            stats := { s.stats with status := Function.update s.stats.status 2 (s.stats.status 2 + 1) } }
        else if status < 400 then
          { setClientAt s i { c with streams := mapAssign c.streams sid { st1 with status_success := 1 } } with
            stats := { s.stats with status := Function.update s.stats.status 3 (s.stats.status 3 + 1) } }
        else if status < 600 then
          { setClientAt s i { c with streams := mapAssign c.streams sid { st1 with status_success := 0 } } with
            stats := { s.stats with status := Function.update s.stats.status (status / 100) (s.stats.status (status / 100) + 1) } }
        else
          setClientAt s i { c with streams := mapAssign c.streams sid { st1 with status_success := 0 } }
    else s

/-- `Client::on_status_code` (h2load.cc:659-684): the H1/H2 direct status
path; same classification as `on_header` without the parse or the
`status_success == -1` guard. -/
def on_status_code (i : Nat) (sid : Int) (status : Nat) (s : Sys) : Sys :=
  let c := clientOf s i
  match c.streams.lookup sid with
  | none => s
  | some st =>
    if s.current_phase ≠ Phase.MAIN_DURATION then
      setClientAt s i { c with streams := mapAssign c.streams sid { st with status_success := 1 } }
    else
      let st1 := { st with req_stat := { st.req_stat with status := status } }
      if 200 ≤ status ∧ status < 300 then
        { setClientAt s i { c with streams := mapAssign c.streams sid { st1 with status_success := 1 } } with
          stats := { s.stats with status := Function.update s.stats.status 2 (s.stats.status 2 + 1) } }
      else if status < 400 then
        { setClientAt s i { c with streams := mapAssign c.streams sid { st1 with status_success := 1 } } with
          stats := { s.stats with status := Function.update s.stats.status 3 (s.stats.status 3 + 1) } }
      else if status < 600 then
        { setClientAt s i { c with streams := mapAssign c.streams sid { st1 with status_success := 0 } } with
          stats := { s.stats with status := Function.update s.stats.status (status / 100) (s.stats.status (status / 100) + 1) } }
      else
        setClientAt s i { c with streams := mapAssign c.streams sid { st1 with status_success := 0 } }

/-- Modelled from the spec: the BOLT `RESPONSE_STATUS_SUCCESS` constant is
declared in a header that is not under src/; spec S5 ("a SUCCESS response
increments `sofarpcStatus[0]`") fixes it to 0. -/
def RESPONSE_STATUS_SUCCESS : Nat := 0

/-- `Client::on_sofarpc_status` (h2load.cc:686-702). -/
def on_sofarpc_status (i : Nat) (sid : Int) (status : Nat) (s : Sys) : Sys :=
  let c := clientOf s i
  match c.streams.lookup sid with
  | none => s
  | some st =>
    if s.current_phase ≠ Phase.MAIN_DURATION then
      setClientAt s i { c with streams := mapAssign c.streams sid { st with status_success := 1 } }
    else
      let st1 := { st with req_stat := { st.req_stat with status := status },
                           status_success := if status = RESPONSE_STATUS_SUCCESS then 1 else 0 }
      { setClientAt s i { c with streams := mapAssign c.streams sid st1 } with
        stats := { s.stats with
                   sofarpcStatus := Function.update s.stats.sofarpcStatus status (s.stats.sofarpcStatus status + 1) } }

/-- `Client::disconnect` (h2load.cc:438-465): stamp the end time, drop all
streams, reset the session, back to `CLIENT_IDLE`, clear `final`.  Timer
stops, TLS shutdown and the socket close are external effects. -/
def disconnect_client (now : Nat) (c : ClientState) : ClientState :=
  { c with cstat := record_client_end_time now c.cstat,
           streams := [],
           sessionPresent := false,
           sessionTerminated := false,
           state_connected := false,
           final := false }

/-- `Client::connect` (h2load.cc:340-390).  The time-recording block runs
first; then the socket is created (`socketOk` is the outcome of the
`make_socket` address loop) and a failure returns -1 with the recording
already done.  Returns (rv, new worker phase, new client). -/
def connect_client (cfg : Config) (now : Nat) (socketOk : Bool) (ph : Phase)
    (c : ClientState) : Int × Phase × ClientState :=
  let (ph1, c1) :=
    if !cfg.is_timing_based_mode || ph = Phase.MAIN_DURATION then
      (ph, { c with cstat := record_connect_start_time now
                      (clear_connect_times (record_client_start_time now c.cstat)) })
    else if ph = Phase.INITIAL_IDLE then
      (Phase.WARM_UP, c)
    else (ph, c)
  if socketOk then ((0 : Int), ph1, c1) else ((-1 : Int), ph1, c1)

/-- `Client::process_abandoned_streams` (h2load.cc:522-533): no-op outside
`MAIN_DURATION`; otherwise count the in-flight requests as failed+errored
and zero `req_inflight`. -/
def process_abandoned_streams (i : Nat) (s : Sys) : Sys :=
  if s.current_phase ≠ Phase.MAIN_DURATION then s
  else
    let c := clientOf s i
    { setClientAt s i { c with req_inflight := 0 } with
      stats := { s.stats with req_failed := s.stats.req_failed + c.req_inflight,
                              req_error := s.stats.req_error + c.req_inflight } }

/-- `Client::process_timedout_streams` (h2load.cc:505-520): no-op outside
`MAIN_DURATION`; otherwise stamp incomplete streams, add `req_inflight` to
`req_timedout`, then process the streams as abandoned. -/
def process_timedout_streams (now : Nat) (i : Nat) (s : Sys) : Sys :=
  if s.current_phase ≠ Phase.MAIN_DURATION then s
  else
    let c := clientOf s i
    let s1 := setClientAt s i
      { c with streams := c.streams.map (fun p =>
          if !p.2.req_stat.completed then
            (p.1, { p.2 with req_stat := { p.2.req_stat with stream_close_time := now } })
          else p) }
    let s2 := { s1 with stats := { s1.stats with
                  req_timedout := s1.stats.req_timedout + (clientOf s1 i).req_inflight } }
    process_abandoned_streams i s2

/-- `Client::timeout` (h2load.cc:392-396). -/
def client_timeout (now : Nat) (i : Nat) (s : Sys) : Sys :=
  let s1 := process_timedout_streams now i s
  setClientAt s1 i (disconnect_client now (clientOf s1 i))

/-- `Client::fail` (h2load.cc:433-436). -/
def fail_client (now : Nat) (i : Nat) (s : Sys) : Sys :=
  process_abandoned_streams i (setClientAt s i (disconnect_client now (clientOf s i)))

/-- `Client::try_again_or_fail` (h2load.cc:404-431).  The `MAIN_DURATION`
block fails the in-flight requests before reconnecting; `connect()` reads
the worker phase, which that block does not change. -/
def try_again_or_fail (cfg : Config) (now : Nat) (socketOk : Bool) (i : Nat)
    (s : Sys) : Sys :=
  let c := disconnect_client now (clientOf s i)
  if c.new_connection_requested then
    let c1 := { c with new_connection_requested := false }
    if 0 < s.total_req_left then
      let s1 :=
        if s.current_phase = Phase.MAIN_DURATION then
          { s with stats := { s.stats with
              req_failed := s.stats.req_failed + c1.req_inflight,
              req_error := s.stats.req_error + c1.req_inflight } }
        else s
      let c2 :=
        if s.current_phase = Phase.MAIN_DURATION then { c1 with req_inflight := 0 } else c1
      let r := connect_client cfg now socketOk s.current_phase c2
      let s2 := { setClientAt s1 i r.2.2 with current_phase := r.2.1 }
      if r.1 = 0 then s2 else process_abandoned_streams i s2
    else process_abandoned_streams i (setClientAt s i c1)
  else process_abandoned_streams i (setClientAt s i c)

/-- `qps_update_period_ms` (h2load.cc:1151). -/
def qps_update_period_ms : Nat := 5

/-- `qps_update_per_second` (h2load.cc:1152). -/
def qps_update_per_second : Nat := 1000 / qps_update_period_ms

/-- `std::numeric_limits<int>::max()`, the unbounded QPS budget. -/
def intMax : Nat := 2147483647

/-- The `while (qpsLeft && !clientsBlockedDueToQps.empty())` drain loop of
`update_worker_qpsLeft` (h2load.cc:1139-1146): pop the back (LIFO), call
`submit_request` on that client (`process_request_failure` on error is a
no-op here, `signal_write` is watcher machinery), repeat. -/
def drainBlockedDueToQps (cfg : Config) (ok : Nat → Bool) (s : Sys) : Sys :=
  if h : s.qpsLeft ≠ 0 ∧ s.clientsBlockedDueToQps ≠ [] then
    let c := s.clientsBlockedDueToQps.getLast h.2
    let s1 : Sys := { s with clientsBlockedDueToQps := s.clientsBlockedDueToQps.dropLast }
    let r := submit_request cfg ok c s1
    let s2 := if r.1 ≠ 0 then process_request_failure r.2 else r.2
    drainBlockedDueToQps cfg ok s2
  else s
termination_by s.clientsBlockedDueToQps.length
decreasing_by
  simp only [process_request_failure]
  have hb : ∀ (t : Sys) (j : Nat), t.qpsLeft ≠ 0 →
      (submit_request cfg ok j t).2.clientsBlockedDueToQps = t.clientsBlockedDueToQps := by
    intro t j ht
    simp only [submit_request, submit_request_rest]
    split_ifs <;> simp_all
  have h1 : s1.qpsLeft ≠ 0 := h.1
  have h2 := hb s1 c h1
  split <;>
    simp only [h2, s1, List.length_dropLast] <;>
    exact Nat.sub_lt (List.length_pos.mpr h.2) Nat.one_pos

/-- `update_worker_qpsLeft` (h2load.cc:1130-1148): refill from the current
slot and advance the index cyclically (unbounded budget when `qps_counts_`
is empty), then drain the blocked queue. -/
def update_worker_qpsLeft (cfg : Config) (ok : Nat → Bool) (s : Sys) : Sys :=
  let s1 :=
    if s.qps_counts ≠ [] then
      { s with qpsLeft := s.qpsLeft + s.qps_counts.getD s.qps_count_index 0,
               qps_count_index := (s.qps_count_index + 1) % s.qps_counts.length }
    else
      { s with qpsLeft := intMax }
  drainBlockedDueToQps cfg ok s1

/-- The per-client body of the `warmup_timeout_cb` loop
(h2load.cc:185-187), state changes only (the asserts are the property
being verified): re-record the client's start and connect times.  The
duration and QPS timer starts are timer machinery. -/
def warmup_snapshot (now : Nat) (c : ClientState) : ClientState :=
  { c with cstat := record_connect_start_time now
             (clear_connect_times (record_client_start_time now c.cstat)) }

/-- `warmup_timeout_cb` (h2load.cc:172-196): apply the snapshot to every
client and move to `MAIN_DURATION`. -/
def warmup_timeout_cb (now : Nat) (s : Sys) : Sys :=
  { s with clients := s.clients.map (warmup_snapshot now),
           current_phase := Phase.MAIN_DURATION }

/-- One client of `Worker::stop_all_clients` (h2load.cc:1186-1197): stamp
the end time; with a live session terminate it and disconnect; then absorb
the `ClientStat`. -/
def stop_one_client (now : Nat) (c : ClientState) : ClientState × ClientStat :=
  let c1 := { c with cstat := record_client_end_time now c.cstat }
  let c2 := if c1.sessionPresent then
      disconnect_client now { c1 with sessionTerminated := true }
    else c1
  (c2, c2.cstat)

/-- `Worker::stop_all_clients` (h2load.cc:1186-1197). -/
def stop_all_clients (now : Nat) (s : Sys) : Sys :=
  { s with clients := s.clients.map (fun c => (stop_one_client now c).1),
           client_stats := s.client_stats ++ s.clients.map (fun c => (stop_one_client now c).2) }

/-- `duration_timeout_cb` (h2load.cc:159-169): zero `total_req_left`, move
to `DURATION_OVER`, stop the QPS tick (timer machinery), stop all clients,
break the loop. -/
def duration_timeout_cb (now : Nat) (s : Sys) : Sys :=
  stop_all_clients now { s with total_req_left := 0, current_phase := Phase.DURATION_OVER }

/-- `std::numeric_limits<std::size_t>::max()`. -/
def sizeMax : Nat := 18446744073709551615

/-- The `nreqs` override (h2load.cc:2033-2039): `qps*duration` in QPS mode,
the `size_t` sentinel otherwise in timing mode. -/
def nreqs_effective (cfg : Config) : Nat :=
  if cfg.is_timing_based_mode then
    if cfg.is_qps_mode then cfg.duration * cfg.qps else sizeMax
  else cfg.nreqs

/-- Worker start state: phase from `Worker::Worker` (h2load.cc:1175-1179),
`total_req_left` from `total_req_left.store(config.nreqs)` (h2load.cc:2040)
after the override, `qps_counts` from `set_qps_counts`, fresh clients from
`Worker::run` (h2load.cc:1202-1215). -/
def initSys (cfg : Config) (qc : List Nat) : Sys :=
  { current_phase := if cfg.is_timing_based_mode then Phase.INITIAL_IDLE else Phase.MAIN_DURATION,
    stats := statsInit, rtts := [], rtt_min := sizeMax, rtt_max := 0,
    req_stats := [], client_stats := [],
    qpsLeft := 0, clientsBlockedDueToQps := [],
    qps_counts := qc, qps_count_index := 0,
    total_req_left := nreqs_effective cfg, total_req_send := 0,
    clients := List.replicate cfg.nclients clientInit }

/-- One worker event: every callback of the event loop that mutates the
modelled state, with its external inputs (timestamps, socket/session
outcomes) as parameters. -/
inductive Event where
  | submitEv (i : Nat)
  | requestEv (i : Nat) (sid : Int)
  | headerEv (i : Nat) (sid : Int) (isStatus : Bool) (value : List Nat)
  | statusCodeEv (i : Nat) (sid : Int) (status : Nat)
  | sofaStatusEv (i : Nat) (sid : Int) (status : Nat)
  | streamCloseEv (now : Nat) (i : Nat) (sid : Int) (success fin : Bool)
  | connectEv (now : Nat) (i : Nat) (socketOk : Bool)
  | failEv (now : Nat) (i : Nat)
  | tryAgainEv (now : Nat) (i : Nat) (socketOk : Bool)
  | timeoutEv (now : Nat) (i : Nat)
  | warmupEv (now : Nat)
  | durationEv (now : Nat)
  | tickEv

/-- Dispatch one event to its embedded callback. -/
def stepSys (cfg : Config) (ok : Nat → Bool) (s : Sys) : Event → Sys
  | Event.submitEv i => (submit_request cfg ok i s).2
  | Event.requestEv i sid => on_request i sid s
  | Event.headerEv i sid isStatus value => on_header i sid isStatus value s
  | Event.statusCodeEv i sid status => on_status_code i sid status s
  | Event.sofaStatusEv i sid status => on_sofarpc_status i sid status s
  | Event.streamCloseEv now i sid success fin => on_stream_close cfg ok now i sid success fin s
  | Event.connectEv now i socketOk =>
      let r := connect_client cfg now socketOk s.current_phase (clientOf s i)
      { setClientAt s i r.2.2 with current_phase := r.2.1 }
  | Event.failEv now i => fail_client now i s
  | Event.tryAgainEv now i socketOk => try_again_or_fail cfg now socketOk i s
  | Event.timeoutEv now i => client_timeout now i s
  | Event.warmupEv now => warmup_timeout_cb now s
  | Event.durationEv now => duration_timeout_cb now s
  | Event.tickEv => update_worker_qpsLeft cfg ok s

/-- Worker states reachable from start by event-loop callbacks. -/
inductive Reachable (cfg : Config) (ok : Nat → Bool) : Sys → Prop where
  | start (qc : List Nat) : Reachable cfg ok (initSys cfg qc)
  | next {s : Sys} (e : Event) : Reachable cfg ok s → Reachable cfg ok (stepSys cfg ok s e)

/-- The QPS slot array build (h2load.cc:2374-2377): `qps_update_per_second`
slots, one token dropped into a random slot per unit; `rand` is the
`std::rand()` oracle. -/
def mkQpsCounts (rand : Nat → Nat) (nqps : Nat) : List Nat :=
  (List.range nqps).foldl
    (fun counts q =>
      counts.set (rand q % qps_update_per_second)
        (counts.getD (rand q % qps_update_per_second) 0 + 1))
    (List.replicate qps_update_per_second 0)

/-- `std::round` on the non-negative doubles of the percentile loop
(half-away-from-zero; for x >= 0 this is floor (x + 1/2)).  Doubles are
idealised as exact rationals. -/
def cppRound (x : ℚ) : ℤ := ⌊x + 1/2⌋

/-- The percentile list (h2load.cc:2561). -/
def percentiles : List ℚ := [50, 75, 90, 95, 99]

/-- The rank computation (h2load.cc:2565):
`std::round((percentile / 100.0) * rtt_counts + 0.5)`. -/
def latencyRank (p : ℚ) (n : Nat) : ℤ := cppRound (p / 100 * n + 1/2)

/-- Modelled from the spec: §4.5 "Percentile p selects rank
ceil((p/100) * N)"; the rank the spec's words prescribe, for comparison
with `latencyRank` taken from the code. -/
def latencyRankSpec (p : ℚ) (n : Nat) : ℤ := ⌈p / 100 * n⌉

/-- The cumulative-sum scan of the percentile loop (h2load.cc:2566-2573):
walk the histogram from `rtt = rtt_min`, accumulate, stop at the first
bucket where the running total reaches `rank` (falls off at
`rtt_max + 1` when it never does, which cannot happen for rank <= N). -/
def latencySelectAux : List Nat → Nat → Nat → Nat → Nat
  | [], _, rtt, _ => rtt
  | h :: t, total, rtt, rank =>
    if total + h ≥ rank then rtt else latencySelectAux t (total + h) (rtt + 1) rank

def latencySelect (hist : List Nat) (rtt_min rank : Nat) : Nat :=
  latencySelectAux hist 0 rtt_min rank

/-- The dense microsecond histogram (h2load.cc:2554-2560): bucket i counts
the samples equal to `rtt_min + i`, for i in [0, rtt_max - rtt_min]. -/
def buildHist (samples : List Nat) (lo hi : Nat) : List Nat :=
  (List.range (hi - lo + 1)).map (fun i => (samples.filter (fun r => r = lo + i)).length)

/-- The Welford accumulator of `compute_time_stat` (h2load.cc:1264-1278):
`a` the running mean, `q` the running sum of squared deviations, `n` the
count, `sum` the plain sum.  Doubles idealised as exact rationals. -/
structure WelfordAcc where
  a : ℚ
  q : ℚ
  n : Nat
  sum : ℚ
deriving DecidableEq, Repr

/-- One iteration of the sample loop (h2load.cc:1269-1278), rapid
calculation method. -/
def welford_step (acc : WelfordAcc) (t : ℚ) : WelfordAcc :=
  let n := acc.n + 1
  let na := acc.a + (t - acc.a) / (n : ℚ)
  { a := na, q := acc.q + (t - acc.a) * (t - na), n := n, sum := acc.sum + t }

def welford (samples : List ℚ) : WelfordAcc :=
  samples.foldl welford_step { a := 0, q := 0, n := 0, sum := 0 }

/-- `compute_time_stat` (h2load.cc:1252-1287), variance part: empty input
yields 0; otherwise `q / (n - 1)` for sample variance when `sampling` and
`n > 1`, else `q / n` (population).  The reported `sd` is the square root
of this value (`res.sd = sqrt(...)`, h2load.cc:1282); min/max/mean/within_sd
do not interact with the claims. -/
def compute_time_stat_var (samples : List ℚ) (sampling : Bool) : ℚ :=
  if samples = [] then 0
  else
    let w := welford samples
    w.q / (if sampling ∧ w.n > 1 then ((w.n - 1 : Nat) : ℚ) else (w.n : ℚ))

/-- The command-line option values of one invocation (`none` = flag not
given); only the options on the modelled validation paths appear.
`has_uri` models "at least one URI results from the positional arguments
or the input file" (reqlines non-empty). -/
structure CmdLine where
  n_opt : Option Nat
  c_opt : Option Nat
  t_opt : Option Nat
  m_opt : Option Nat
  r_opt : Option Nat
  D_opt : Option Nat
  qps_opt : Option Nat
  has_uri : Bool
deriving DecidableEq, Repr

/-- Option parsing and configuration validation of `main`
(h2load.cc:1720-2040): `none` = the process exits non-zero before any
workload starts; `some cfg` = the workload starts with that config (after
the timing-mode `nreqs` override).  In parse order: `-r 0` exits
(h2load.cc:1790-1796), `-D 0` exits (h2load.cc:1817-1824), `--qps` is
stored unchecked (h2load.cc:1880-1883); then the post-parse checks in
source order.  Defaults from `Config::Config` (h2load.cc:76-84). -/
def parse_and_validate (cl : CmdLine) : Option Config :=
  if cl.r_opt = some 0 then none
  else if cl.D_opt = some 0 then none
  else
    let cfg : Config :=
      { nreqs := cl.n_opt.getD 1, nclients := cl.c_opt.getD 1,
        nthreads := cl.t_opt.getD 1, max_concurrent_streams := cl.m_opt.getD 1,
        rate := cl.r_opt.getD 0, duration := cl.D_opt.getD 0,
        warm_up_time := 0, qps := cl.qps_opt.getD 0,
        conn_active_timeout_pos := false, conn_inactivity_timeout_pos := false }
    if cfg.nclients = 0 then none
    else if !cl.has_uri then none
    else if cfg.is_qps_mode && cfg.is_rate_mode then none
    else if cfg.is_qps_mode && cfg.duration = 0 then none
    else if cfg.is_timing_based_mode && cfg.is_rate_mode then none
    else if cfg.nreqs = 0 && !cfg.is_timing_based_mode then none
    else if cfg.max_concurrent_streams = 0 then none
    else if cfg.nthreads = 0 then none
    else if cfg.nclients < cfg.nthreads && !cfg.is_qps_mode then none
    else
      let cfg1 := if cfg.is_timing_based_mode then { cfg with nreqs := 0 } else cfg
      if cfg1.is_rate_mode && cfg1.rate < cfg1.nthreads then none
      else if cfg1.is_rate_mode && cfg1.nclients < cfg1.rate then none
      else if cfg1.nreqs = 0 && !cfg1.is_timing_based_mode then none
      else some { cfg1 with nreqs := nreqs_effective cfg1 }

/-! Concrete fixtures for the witness and counterexample theorems. -/

/-- A session oracle where every `session->submit_request()` succeeds. -/
def okAll : Nat → Bool := fun _ => true

/-- Count-mode run: `-n 10 -c 1 -t 1`. -/
def cfgCount : Config :=
  { nreqs := 10, nclients := 1, nthreads := 1, max_concurrent_streams := 1, rate := 0,
    duration := 0, warm_up_time := 0, qps := 0, conn_active_timeout_pos := false,
    conn_inactivity_timeout_pos := false }

/-- Plain duration run: `-D 5` without `--qps`. -/
def cfgPlainDuration : Config := { cfgCount with duration := 5 }

/-- QPS run: `-D 5 --qps 100`. -/
def cfgQps : Config := { cfgCount with duration := 5, qps := 100 }

/-- One in-flight stream, request sent at t=10, status classified 200. -/
def streamEx : Stream :=
  { req_stat := { request_time := 10, stream_close_time := 0, status := 200, completed := false },
    status_success := 1 }

/-- A connected client carrying `streamEx` under stream id 1. -/
def clientEx : ClientState :=
  { clientInit with streams := [((1 : Int), streamEx)], req_inflight := 1, sessionPresent := true }

/-- A worker in `MAIN_DURATION` with that one client. -/
def sysMain : Sys :=
  { initSys cfgCount [] with clients := [clientEx], current_phase := Phase.MAIN_DURATION }

/-- A plain-duration worker at start. -/
def sysPlain : Sys := { initSys cfgPlainDuration [] with clients := [clientInit] }

/-- A QPS worker with three blocked clients and an empty budget. -/
def sysQps : Sys :=
  { initSys cfgQps [3, 0, 2] with
    clientsBlockedDueToQps := [10, 11, 12]
    clients := List.replicate 20 clientInit }

/-- Command line `--qps 0 -D 5 URI`, everything else defaulted. -/
def clQpsZero : CmdLine :=
  { n_opt := none, c_opt := none, t_opt := none, m_opt := none, r_opt := none,
    D_opt := some 5, qps_opt := some 0, has_uri := true }

/-- The worker state after the first `connect()` of a plain-duration run:
phase has moved `INITIAL_IDLE -> WARM_UP`. -/
def sysWarm : Sys :=
  stepSys cfgPlainDuration okAll (initSys cfgPlainDuration []) (Event.connectEv 3 0 true)

/-- The counter triple the warm-up assertions read on each client. -/
def countersZero (c : ClientState) : Prop :=
  c.req_inflight = 0 ∧ c.req_started = 0 ∧ c.req_done = 0

/-! ### Shared helper lemmas -/

theorem list_getD_set_self {α : Type} (l : List α) (i : Nat) (a d : α)
    (h : i < l.length) : (l.set i a).getD i d = a := by
  rw [List.getD_eq_getElem?_getD, List.getElem?_set_self h, Option.getD_some]

theorem clientOf_setClientAt_self (s : Sys) (i : Nat) (c : ClientState)
    (h : i < s.clients.length) : clientOf (setClientAt s i c) i = c :=
  list_getD_set_self s.clients i c clientInit h

/-- `submit_request_rest` never touches `total_req_left`, the blocked
queue, the QPS budget or counts, the client list length, or any stats
counter other than `req_started`. -/
theorem submit_request_rest_frame (ok : Nat → Bool) (i : Nat) (t : Sys) :
    (submit_request_rest ok i t).2.total_req_left = t.total_req_left ∧
    (submit_request_rest ok i t).2.clientsBlockedDueToQps = t.clientsBlockedDueToQps ∧
    (submit_request_rest ok i t).2.qpsLeft = t.qpsLeft ∧
    (submit_request_rest ok i t).2.qps_counts = t.qps_counts ∧
    (submit_request_rest ok i t).2.qps_count_index = t.qps_count_index ∧
    (submit_request_rest ok i t).2.current_phase = t.current_phase ∧
    (submit_request_rest ok i t).2.total_req_send = t.total_req_send + 1 ∧
    (submit_request_rest ok i t).2.stats.req_done = t.stats.req_done ∧
    (submit_request_rest ok i t).2.stats.req_success = t.stats.req_success ∧
    (submit_request_rest ok i t).2.stats.req_status_success = t.stats.req_status_success ∧
    (submit_request_rest ok i t).2.stats.req_failed = t.stats.req_failed ∧
    (submit_request_rest ok i t).2.stats.req_error = t.stats.req_error ∧
    (submit_request_rest ok i t).2.stats.req_timedout = t.stats.req_timedout := by
  simp only [submit_request_rest]
  split_ifs <;> simp

/-! ### C2: latency percentile rank -/

/-- C2 (counterexample): for two RTT samples {1us, 2us} and p = 50 the
code computes rank `round(1.5) = 2` and the cumulative scan reports the
sample 2, while rank `ceil((50/100)*2) = 1` would report the sample 1:
the reported value is not the sample at rank `ceil((p/100)*N)`. -/
theorem latency_rank_not_ceil_cex :
    latencyRank 50 2 = 2 ∧ latencyRankSpec 50 2 = 1 ∧
    latencySelect (buildHist [1, 2] 1 2) 1 (latencyRank 50 2).toNat = 2 ∧
    latencySelect (buildHist [1, 2] 1 2) 1 (latencyRankSpec 50 2).toNat = 1 ∧
    (2 : Nat) ≠ 1 := by
  have h1 : latencyRank 50 2 = 2 := by
    simp only [latencyRank, cppRound]
    push_cast
    norm_num
  have h2 : latencyRankSpec 50 2 = 1 := by
    simp only [latencyRankSpec]
    push_cast
    norm_num
  refine ⟨h1, h2, ?_, ?_, by decide⟩
  · rw [h1]; decide
  · rw [h2]; decide

/-- C2 (amended): the percentile set is {50, 75, 90, 95, 99} and the
reported latency value is the sample at rank `floor((p/100)*N) + 1`
obtained by the cumulative scan `latencySelect` over the dense histogram
(this agrees with `ceil((p/100)*N)` except when `(p/100)*N` is an exact
integer, where the code selects one rank higher). -/
theorem latency_rank_formula :
    percentiles = [50, 75, 90, 95, 99] ∧
    ∀ (p : ℚ) (n : Nat), latencyRank p n = ⌊p / 100 * n⌋ + 1 := by
  refine ⟨rfl, fun p n => ?_⟩
  have h : p / 100 * n + 1/2 + 1/2 = p / 100 * n + 1 := by ring
  rw [latencyRank, cppRound, h, Int.floor_add_one]

/-! ### C3: configuration validation of -r 0 and --qps 0 -/

/-- C3 (counterexample): the command line `--qps 0 -D 5 URI` passes every
validation check and starts the workload (qps = 0 simply turns QPS mode
off), refuting "the combination of --qps 0 with -D is rejected". -/
theorem qps_zero_with_duration_accepted_cex :
    clQpsZero.qps_opt = some 0 ∧ clQpsZero.D_opt = some 5 ∧
    (parse_and_validate clQpsZero).isSome = true :=
  ⟨rfl, rfl, by decide⟩

/-- C3 (amended): `-r 0` always exits non-zero during option parsing; and
`--qps 0` is inert — a command line with `--qps 0` validates and runs
exactly like the same command line without `--qps` (in particular
`--qps 0` with `-D` is accepted, as a plain duration run). -/
theorem rate_zero_rejected_qps_zero_inert :
    (∀ cl : CmdLine, cl.r_opt = some 0 → parse_and_validate cl = none) ∧
    (∀ cl : CmdLine, cl.qps_opt = some 0 →
      parse_and_validate cl = parse_and_validate { cl with qps_opt := none }) := by
  constructor
  · intro cl h
    simp [parse_and_validate, h]
  · intro cl h
    obtain ⟨n, c, t, m, r, D, q, u⟩ := cl
    simp only at h
    subst h
    rfl

theorem rate_zero_rejected_qps_zero_inert_witness :
    parse_and_validate { clQpsZero with r_opt := some 0 } = none ∧
    parse_and_validate clQpsZero = parse_and_validate { clQpsZero with qps_opt := none } :=
  ⟨rate_zero_rejected_qps_zero_inert.1 { clQpsZero with r_opt := some 0 } rfl,
   rate_zero_rejected_qps_zero_inert.2 clQpsZero rfl⟩

/-! ### C4: monotonicity of total_req_left -/

/-- C4 (counterexample): in plain duration mode (`-D 5`, no `--qps`),
`total_req_left` starts at the `size_t` sentinel and the very first
`submit_request` decrements it — it is not held at the sentinel until the
duration timer fires. -/
theorem total_req_left_decrement_plain_duration_cex :
    cfgPlainDuration.is_timing_based_mode = true ∧
    cfgPlainDuration.is_qps_mode = false ∧
    sysPlain.total_req_left = sizeMax ∧
    (submit_request cfgPlainDuration okAll 0 sysPlain).2.total_req_left = sizeMax - 1 ∧
    sizeMax - 1 ≠ sizeMax := by
  exact ⟨rfl, rfl, rfl, rfl, by decide⟩

/-- C4 (amended): `total_req_left` is monotonically non-increasing across
every `submit_request` call in every mode (count mode included); in QPS
mode submissions leave it untouched; and the duration timer stores zero.
In plain (non-QPS) duration mode it starts at the `size_t` sentinel but is
decremented by each submission rather than held. -/
theorem total_req_left_monotone (cfg : Config) (ok : Nat → Bool) (i now : Nat)
    (s : Sys) :
    (submit_request cfg ok i s).2.total_req_left ≤ s.total_req_left ∧
    (cfg.is_qps_mode = true →
      (submit_request cfg ok i s).2.total_req_left = s.total_req_left) ∧
    (duration_timeout_cb now s).total_req_left = 0 := by
  have hrest := submit_request_rest_frame ok i
  refine ⟨?_, ?_, rfl⟩
  · simp only [submit_request]
    split_ifs with h1 h2 h3
    · exact Nat.le_refl _
    · exact le_trans (le_of_eq (hrest _).1) (Nat.le_refl _)
    · exact Nat.le_refl _
    · exact le_trans (le_of_eq (hrest _).1) (Nat.sub_le _ _)
  · intro hq
    simp only [submit_request, hq, if_true]
    split_ifs with h1
    · rfl
    · exact (hrest _).1

theorem total_req_left_monotone_witness :
    (submit_request cfgQps okAll 0 sysQps).2.total_req_left ≤ sysQps.total_req_left ∧
    (submit_request cfgQps okAll 0 sysQps).2.total_req_left = sysQps.total_req_left :=
  ⟨(total_req_left_monotone cfgQps okAll 0 0 sysQps).1,
   (total_req_left_monotone cfgQps okAll 0 0 sysQps).2.1 rfl⟩

/-! ### C5: client_start_time recording -/

/-- C5 (counterexample): a `connect()` whose socket creation fails on all
addresses still records `client_start_time` (the recording block runs
before `make_socket`), refuting "a connect() attempt that fails to create
any socket does not record it". -/
theorem client_start_time_failed_connect_cex :
    clientInit.cstat.client_start_time = 0 ∧
    (connect_client cfgCount 7 false Phase.MAIN_DURATION clientInit).1 = -1 ∧
    (connect_client cfgCount 7 false Phase.MAIN_DURATION clientInit).2.2.cstat.client_start_time = 7 :=
  ⟨rfl, rfl, rfl⟩

/-- C5 (amended): `client_start_time` is recorded (write-once) by the
first `connect()` call made in a recording phase (non-timing mode, or
phase `MAIN_DURATION`) regardless of whether socket creation succeeds, or
by the warm-up snapshot; once recorded it is never rewritten by any later
connect, disconnect or warm-up snapshot. -/
theorem client_start_time_write_once (cfg : Config) (now : Nat) (sk : Bool)
    (ph : Phase) (c : ClientState) :
    ((connect_client cfg now sk ph c).2.2.cstat.client_start_time =
      if recorded c.cstat.client_start_time then c.cstat.client_start_time
      else if !cfg.is_timing_based_mode || ph = Phase.MAIN_DURATION then now
      else c.cstat.client_start_time) ∧
    (disconnect_client now c).cstat.client_start_time = c.cstat.client_start_time ∧
    (warmup_snapshot now c).cstat.client_start_time =
      (if recorded c.cstat.client_start_time then c.cstat.client_start_time else now) := by
  refine ⟨?_, rfl, ?_⟩
  · simp only [connect_client, record_connect_start_time, clear_connect_times,
      record_client_start_time]
    split_ifs <;> simp_all
  · simp only [warmup_snapshot, record_connect_start_time, clear_connect_times,
      record_client_start_time]
    split_ifs <;> simp_all

/-! ### C10: QPS mode never consumes total_req_left -/

/-- C10: in QPS mode `submit_request` neither reads nor decrements
`total_req_left` (it is a frame), a non-zero return can only come from a
failing session submit (never from an exhausted request budget),
`total_req_left` starts at `qps * duration`, and only the duration timer
stores zero. -/
theorem qps_mode_total_req_left_frame (cfg : Config) (ok : Nat → Bool)
    (i now : Nat) (qc : List Nat) (s : Sys) (hq : cfg.is_qps_mode = true) :
    (submit_request cfg ok i s).2.total_req_left = s.total_req_left ∧
    ((submit_request cfg ok i s).1 ≠ 0 →
      (clientOf s i).sessionPresent = true ∧ ok i = false) ∧
    (cfg.is_timing_based_mode = true →
      (initSys cfg qc).total_req_left = cfg.duration * cfg.qps) ∧
    (duration_timeout_cb now s).total_req_left = 0 := by
  refine ⟨?_, ?_, ?_, rfl⟩
  · simp only [submit_request, hq, if_true]
    split_ifs with h1
    · rfl
    · exact (submit_request_rest_frame ok i _).1
  · simp only [submit_request, hq, if_true]
    split_ifs with h1
    · intro h; exact absurd rfl h
    · simp only [submit_request_rest]
      split_ifs with h2 h3 <;> intro h
      · simp only [Bool.and_eq_true, Bool.not_eq_true'] at h2
        exact h2
      · exact absurd rfl h
      · exact absurd rfl h
  · intro ht
    simp [initSys, nreqs_effective, ht, hq, Nat.mul_comm]

theorem qps_mode_total_req_left_frame_witness :
    (submit_request cfgQps okAll 0 sysQps).2.total_req_left = sysQps.total_req_left ∧
    (initSys cfgQps []).total_req_left = cfgQps.duration * cfgQps.qps ∧
    (duration_timeout_cb 9 sysQps).total_req_left = 0 := by
  have h := qps_mode_total_req_left_frame cfgQps okAll 0 9 [] sysQps rfl
  exact ⟨h.1, h.2.2.1 rfl, h.2.2.2⟩

/-! ### C9: stream close with a missing stream id -/

/-- C9: in `MAIN_DURATION`, a close whose stream id is not in the map
still floor-decrements `req_inflight` but returns before touching
`req_done`, any success/failure counter, the RTT record or the collected
request stats, and without erasing a stream, terminating the session,
enqueueing on the QPS queue, or submitting a replacement. -/
theorem stream_close_missing_stream_frame (cfg : Config) (ok : Nat → Bool)
    (now i : Nat) (sid : Int) (success fin : Bool) (s : Sys)
    (hph : s.current_phase = Phase.MAIN_DURATION)
    (hi : i < s.clients.length)
    (hlk : (clientOf s i).streams.lookup sid = none) :
    (on_stream_close cfg ok now i sid success fin s).stats = s.stats ∧
    (on_stream_close cfg ok now i sid success fin s).rtts = s.rtts ∧
    (on_stream_close cfg ok now i sid success fin s).req_stats = s.req_stats ∧
    (on_stream_close cfg ok now i sid success fin s).total_req_left = s.total_req_left ∧
    (on_stream_close cfg ok now i sid success fin s).total_req_send = s.total_req_send ∧
    (on_stream_close cfg ok now i sid success fin s).clientsBlockedDueToQps
      = s.clientsBlockedDueToQps ∧
    (clientOf (on_stream_close cfg ok now i sid success fin s) i).streams
      = (clientOf s i).streams ∧
    (clientOf (on_stream_close cfg ok now i sid success fin s) i).sessionTerminated
      = (clientOf s i).sessionTerminated ∧
    (clientOf (on_stream_close cfg ok now i sid success fin s) i).req_done
      = (clientOf s i).req_done ∧
    (clientOf (on_stream_close cfg ok now i sid success fin s) i).req_started
      = (clientOf s i).req_started ∧
    (clientOf (on_stream_close cfg ok now i sid success fin s) i).req_inflight
      = (clientOf s i).req_inflight - 1 := by
  have hc1 : (if 0 < (clientOf s i).req_inflight then
      { clientOf s i with req_inflight := (clientOf s i).req_inflight - 1 }
    else clientOf s i).streams.lookup sid = none := by
    split <;> exact hlk
  have hred : on_stream_close cfg ok now i sid success fin s =
      setClientAt s i (if 0 < (clientOf s i).req_inflight then
        { clientOf s i with req_inflight := (clientOf s i).req_inflight - 1 }
      else clientOf s i) := by
    simp only [on_stream_close, hph, if_pos, hc1]
  rw [hred]
  rw [clientOf_setClientAt_self s i _ hi]
  refine ⟨rfl, rfl, rfl, rfl, rfl, rfl, ?_, ?_, ?_, ?_, ?_⟩ <;>
    split <;> first
      | rfl
      | omega

theorem stream_close_missing_stream_frame_witness :
    sysMain.current_phase = Phase.MAIN_DURATION ∧
    (clientOf sysMain 0).streams.lookup 99 = none ∧
    (on_stream_close cfgCount okAll 25 0 99 false false sysMain).stats = sysMain.stats ∧
    (clientOf (on_stream_close cfgCount okAll 25 0 99 false false sysMain) 0).req_inflight
      = (clientOf sysMain 0).req_inflight - 1 := by
  have h := stream_close_missing_stream_frame cfgCount okAll 25 0 99 false false sysMain
    rfl (by decide) (by decide)
  exact ⟨rfl, by decide, h.1, h.2.2.2.2.2.2.2.2.2.2⟩

/-! ### C1: counter routing on stream close -/

theorem submit_request_stats_cases (cfg : Config) (ok : Nat → Bool) (i : Nat) (t : Sys) :
    (submit_request cfg ok i t).2.stats = t.stats ∨
    (submit_request cfg ok i t).2.stats
      = { t.stats with req_started := t.stats.req_started + 1 } := by
  simp only [submit_request, submit_request_rest]
  split_ifs <;> first
    | exact Or.inl rfl
    | exact Or.inr rfl

theorem stream_close_rest_stats (cfg : Config) (ok : Nat → Bool) (i : Nat)
    (sid : Int) (fin : Bool) (t : Sys) :
    (stream_close_rest cfg ok i sid fin t).stats = t.stats ∨
    (stream_close_rest cfg ok i sid fin t).stats
      = { t.stats with req_started := t.stats.req_started + 1 } := by
  simp only [stream_close_rest, terminate_session, process_request_failure, ite_self]
  split_ifs
  · exact Or.inl rfl
  · exact submit_request_stats_cases cfg ok i _
  · exact Or.inl rfl

/-- C1 (counterexample): in `MAIN_DURATION` with the stream id present, a
single close with `success = false` increments both `req_failed` and
`req_error` — two of the four counters {req_success, req_failed,
req_error, req_timedout} — refuting "no single close increments two or
more of these four counters". -/
theorem on_stream_close_double_increment_cex :
    sysMain.current_phase = Phase.MAIN_DURATION ∧
    (clientOf sysMain 0).streams.lookup 1 = some streamEx ∧
    sysMain.stats.req_failed = 0 ∧
    sysMain.stats.req_error = 0 ∧
    (on_stream_close cfgCount okAll 25 0 1 false false sysMain).stats.req_failed = 1 ∧
    (on_stream_close cfgCount okAll 25 0 1 false false sysMain).stats.req_error = 1 :=
  ⟨rfl, by decide, rfl, rfl, by decide, by decide⟩

/-- C1 (amended): in `MAIN_DURATION` with the stream id present, every
close updates `req_done` by exactly one and takes exactly one of three
increment paths: success with `status_success = 1` bumps
{req_success, req_status_success}; success otherwise bumps
{req_success, req_failed}; failure bumps {req_failed, req_error};
`req_timedout` is never incremented by a stream close. -/
theorem on_stream_close_counter_paths (cfg : Config) (ok : Nat → Bool)
    (now i : Nat) (sid : Int) (success fin : Bool) (s : Sys) (st : Stream) (s' : Sys)
    (hph : s.current_phase = Phase.MAIN_DURATION)
    (hlk : (clientOf s i).streams.lookup sid = some st)
    (hs : s' = on_stream_close cfg ok now i sid success fin s) :
    s'.stats.req_done = s.stats.req_done + 1 ∧
    s'.stats.req_timedout = s.stats.req_timedout ∧
    ((success = true ∧ st.status_success = 1 ∧
        s'.stats.req_success = s.stats.req_success + 1 ∧
        s'.stats.req_status_success = s.stats.req_status_success + 1 ∧
        s'.stats.req_failed = s.stats.req_failed ∧
        s'.stats.req_error = s.stats.req_error) ∨
     (success = true ∧ st.status_success ≠ 1 ∧
        s'.stats.req_success = s.stats.req_success + 1 ∧
        s'.stats.req_status_success = s.stats.req_status_success ∧
        s'.stats.req_failed = s.stats.req_failed + 1 ∧
        s'.stats.req_error = s.stats.req_error) ∨
     (success = false ∧
        s'.stats.req_success = s.stats.req_success ∧
        s'.stats.req_status_success = s.stats.req_status_success ∧
        s'.stats.req_failed = s.stats.req_failed + 1 ∧
        s'.stats.req_error = s.stats.req_error + 1)) := by
  subst hs
  have key : ∀ t : Sys,
      (stream_close_rest cfg ok i sid fin t).stats.req_done = t.stats.req_done ∧
      (stream_close_rest cfg ok i sid fin t).stats.req_success = t.stats.req_success ∧
      (stream_close_rest cfg ok i sid fin t).stats.req_status_success
        = t.stats.req_status_success ∧
      (stream_close_rest cfg ok i sid fin t).stats.req_failed = t.stats.req_failed ∧
      (stream_close_rest cfg ok i sid fin t).stats.req_error = t.stats.req_error ∧
      (stream_close_rest cfg ok i sid fin t).stats.req_timedout = t.stats.req_timedout := by
    intro t
    rcases stream_close_rest_stats cfg ok i sid fin t with h | h <;> rw [h] <;>
      exact ⟨rfl, rfl, rfl, rfl, rfl, rfl⟩
  have hc1 : (if 0 < (clientOf s i).req_inflight then
      { clientOf s i with req_inflight := (clientOf s i).req_inflight - 1 }
    else clientOf s i).streams.lookup sid = some st := by
    split <;> exact hlk
  simp only [on_stream_close, hph, if_pos, hc1]
  cases success with
  | false =>
    refine ⟨?_, ?_, Or.inr (Or.inr ⟨rfl, ?_, ?_, ?_, ?_⟩)⟩
    all_goals
      first
        | (rw [(key _).1]; simp)
        | (rw [(key _).2.2.2.2.2]; simp)
        | (rw [(key _).2.1]; simp)
        | (rw [(key _).2.2.1]; simp)
        | (rw [(key _).2.2.2.1]; simp)
        | (rw [(key _).2.2.2.2.1]; simp)
  | true =>
    by_cases hss : st.status_success = 1
    · refine ⟨?_, ?_, Or.inl ⟨rfl, hss, ?_, ?_, ?_, ?_⟩⟩
      all_goals
        first
          | (rw [(key _).1]; simp [hss])
          | (rw [(key _).2.2.2.2.2]; simp [hss])
          | (rw [(key _).2.1]; simp [hss])
          | (rw [(key _).2.2.1]; simp [hss])
          | (rw [(key _).2.2.2.1]; simp [hss])
          | (rw [(key _).2.2.2.2.1]; simp [hss])
    · refine ⟨?_, ?_, Or.inr (Or.inl ⟨rfl, hss, ?_, ?_, ?_, ?_⟩)⟩
      all_goals
        first
          | (rw [(key _).1]; simp [hss])
          | (rw [(key _).2.2.2.2.2]; simp [hss])
          | (rw [(key _).2.1]; simp [hss])
          | (rw [(key _).2.2.1]; simp [hss])
          | (rw [(key _).2.2.2.1]; simp [hss])
          | (rw [(key _).2.2.2.2.1]; simp [hss])

theorem on_stream_close_counter_paths_witness :
    (on_stream_close cfgCount okAll 25 0 1 true false sysMain).stats.req_done
      = sysMain.stats.req_done + 1 ∧
    (on_stream_close cfgCount okAll 25 0 1 true false sysMain).stats.req_timedout
      = sysMain.stats.req_timedout := by
  have h := on_stream_close_counter_paths cfgCount okAll 25 0 1 true false sysMain
    streamEx (on_stream_close cfgCount okAll 25 0 1 true false sysMain)
    rfl (by decide) rfl
  exact ⟨h.1, h.2.1⟩

/-! ### C8: Welford standard deviation -/

theorem welford_replicate_aux (c : ℚ) : ∀ (m n : Nat) (s0 : ℚ),
    List.foldl welford_step { a := c, q := 0, n := n, sum := s0 } (List.replicate m c)
      = { a := c, q := 0, n := n + m, sum := s0 + m * c } := by
  intro m
  induction m with
  | zero => intro n s0; simp
  | succ m ih =>
    intro n s0
    rw [List.replicate_succ, List.foldl_cons]
    have hstep : welford_step { a := c, q := 0, n := n, sum := s0 } c
        = { a := c, q := 0, n := n + 1, sum := s0 + c } := by
      simp only [welford_step]
      congr 1 <;> first
        | rfl
        | (push_cast; ring)
    rw [hstep, ih]
    congr 1 <;> first
      | rfl
      | omega
      | (push_cast; ring)

/-- C8: `compute_time_stat` with `sampling = false` (population variance):
the standard deviation `sqrt(q/n)` is 0 on every non-empty constant
sequence, and is k/2 on the two-element sequence {x, x+k}. -/
theorem welford_sd_properties :
    (∀ (c : ℚ) (m : Nat), m ≠ 0 →
      Real.sqrt ((compute_time_stat_var (List.replicate m c) false : ℚ) : ℝ) = 0) ∧
    (∀ x k : ℚ, 0 ≤ k →
      Real.sqrt ((compute_time_stat_var [x, x + k] false : ℚ) : ℝ) = (k : ℝ) / 2) := by
  constructor
  · intro c m hm
    obtain ⟨l, rfl⟩ : ∃ l, m = l + 1 := ⟨m - 1, by omega⟩
    have hstep0 : welford_step { a := 0, q := 0, n := 0, sum := 0 } c
        = { a := c, q := 0, n := 1, sum := 0 + c } := by
      simp only [welford_step]
      congr 1 <;> first
        | rfl
        | (push_cast; ring)
    have hw : welford (List.replicate (l + 1) c)
        = { a := c, q := 0, n := 1 + l, sum := 0 + c + l * c } := by
      rw [welford, List.replicate_succ, List.foldl_cons, hstep0, welford_replicate_aux]
    have hv : compute_time_stat_var (List.replicate (l + 1) c) false = 0 := by
      rw [compute_time_stat_var, if_neg (by simp [List.replicate_succ]), hw]
      simp
    rw [hv]
    simp
  · intro x k hk
    have hw : welford [x, x + k] = { a := x + k/2, q := k^2/2, n := 2, sum := 2*x + k } := by
      simp only [welford, List.foldl_cons, List.foldl_nil, welford_step]
      congr 1 <;> first
        | rfl
        | (push_cast; ring)
    have hv : compute_time_stat_var [x, x + k] false = k^2/4 := by
      rw [compute_time_stat_var, if_neg (by simp), hw]
      norm_num
      ring
    rw [hv]
    have hcast : ((k^2/4 : ℚ) : ℝ) = ((k : ℝ)/2)^2 := by
      push_cast
      ring
    rw [hcast, Real.sqrt_sq (by positivity)]

theorem welford_sd_properties_witness :
    Real.sqrt ((compute_time_stat_var (List.replicate 3 (5 : ℚ)) false : ℚ) : ℝ) = 0 ∧
    Real.sqrt ((compute_time_stat_var [(2 : ℚ), 2 + 4] false : ℚ) : ℝ) = ((4 : ℚ) : ℝ) / 2 :=
  ⟨welford_sd_properties.1 5 3 (by decide), welford_sd_properties.2 2 4 (by norm_num)⟩

/-! ### C6: the 5 ms QPS refill tick -/

theorem submit_qps_step (cfg : Config) (ok : Nat → Bool) (j : Nat) (t : Sys)
    (hq : cfg.is_qps_mode = true) (h0 : t.qpsLeft ≠ 0) :
    (submit_request cfg ok j t).2.qpsLeft = t.qpsLeft - 1 ∧
    (submit_request cfg ok j t).2.clientsBlockedDueToQps = t.clientsBlockedDueToQps ∧
    (submit_request cfg ok j t).2.total_req_send = t.total_req_send + 1 ∧
    (submit_request cfg ok j t).2.qps_counts = t.qps_counts ∧
    (submit_request cfg ok j t).2.qps_count_index = t.qps_count_index ∧
    (submit_request cfg ok j t).2.total_req_left = t.total_req_left := by
  simp only [submit_request, hq, if_true, if_neg h0]
  have h := submit_request_rest_frame ok j { t with qpsLeft := t.qpsLeft - 1 }
  exact ⟨h.2.2.1, h.2.1, h.2.2.2.2.2.2.1, h.2.2.2.1, h.2.2.2.2.1, h.1⟩

theorem drain_unfold_pos (cfg : Config) (ok : Nat → Bool) (s : Sys)
    (h1 : s.qpsLeft ≠ 0) (h2 : s.clientsBlockedDueToQps ≠ []) :
    drainBlockedDueToQps cfg ok s =
      drainBlockedDueToQps cfg ok
        (submit_request cfg ok (s.clientsBlockedDueToQps.getLast h2)
          { s with clientsBlockedDueToQps := s.clientsBlockedDueToQps.dropLast }).2 := by
  rw [drainBlockedDueToQps.eq_def, dif_pos ⟨h1, h2⟩]
  simp only [process_request_failure, ite_self]

theorem drain_unfold_neg (cfg : Config) (ok : Nat → Bool) (s : Sys)
    (h : ¬(s.qpsLeft ≠ 0 ∧ s.clientsBlockedDueToQps ≠ [])) :
    drainBlockedDueToQps cfg ok s = s := by
  rw [drainBlockedDueToQps.eq_def, dif_neg h]

/-- The drain loop processes exactly `min qpsLeft (queue length)` clients,
consuming one token and one `submit_request` (hence one `total_req_send`
bump) per client, leaving the front of the queue. -/
theorem drain_spec (cfg : Config) (ok : Nat → Bool) (hq : cfg.is_qps_mode = true) :
    ∀ (N : Nat) (s : Sys), s.clientsBlockedDueToQps.length ≤ N →
      (drainBlockedDueToQps cfg ok s).qpsLeft
        = s.qpsLeft - min s.qpsLeft s.clientsBlockedDueToQps.length ∧
      (drainBlockedDueToQps cfg ok s).clientsBlockedDueToQps
        = s.clientsBlockedDueToQps.take
            (s.clientsBlockedDueToQps.length - min s.qpsLeft s.clientsBlockedDueToQps.length) ∧
      (drainBlockedDueToQps cfg ok s).total_req_send
        = s.total_req_send + min s.qpsLeft s.clientsBlockedDueToQps.length ∧
      (drainBlockedDueToQps cfg ok s).qps_counts = s.qps_counts ∧
      (drainBlockedDueToQps cfg ok s).qps_count_index = s.qps_count_index ∧
      (drainBlockedDueToQps cfg ok s).total_req_left = s.total_req_left := by
  intro N
  induction N with
  | zero =>
    intro s hlen
    have hnil : s.clientsBlockedDueToQps = [] :=
      List.eq_nil_of_length_eq_zero (Nat.le_zero.mp hlen)
    rw [drain_unfold_neg cfg ok s (by simp [hnil])]
    simp [hnil]
  | succ N ih =>
    intro s hlen
    by_cases hc : s.qpsLeft ≠ 0 ∧ s.clientsBlockedDueToQps ≠ []
    · obtain ⟨h1, h2⟩ := hc
      have hL : 0 < s.clientsBlockedDueToQps.length := List.length_pos.mpr h2
      rw [drain_unfold_pos cfg ok s h1 h2]
      have hstep := submit_qps_step cfg ok (s.clientsBlockedDueToQps.getLast h2)
        { s with clientsBlockedDueToQps := s.clientsBlockedDueToQps.dropLast } hq h1
      have hlen1 : (submit_request cfg ok (s.clientsBlockedDueToQps.getLast h2)
          { s with clientsBlockedDueToQps := s.clientsBlockedDueToQps.dropLast }).2.clientsBlockedDueToQps.length ≤ N := by
        rw [hstep.2.1]
        simp only [List.length_dropLast]
        omega
      have H := ih _ hlen1
      rw [hstep.1, hstep.2.1, hstep.2.2.1, hstep.2.2.2.1, hstep.2.2.2.2.1,
          hstep.2.2.2.2.2] at H
      simp only [List.length_dropLast] at H
      refine ⟨?_, ?_, ?_, H.2.2.2.1, H.2.2.2.2.1, H.2.2.2.2.2⟩
      · rw [H.1]
        omega
      · rw [H.2.1, List.dropLast_eq_take, List.take_take]
        congr 1
        omega
      · rw [H.2.2.1]
        omega
    · rw [drain_unfold_neg cfg ok s hc]
      push_neg at hc
      have hmin : min s.qpsLeft s.clientsBlockedDueToQps.length = 0 := by
        by_cases h0 : s.qpsLeft = 0
        · simp [h0]
        · have := hc h0
          simp [this]
      rw [hmin]
      simp [List.take_length]

theorem drain_lifo (cfg : Config) (ok : Nat → Bool) (s : Sys) (l : List Nat) (b : Nat)
    (h1 : s.qpsLeft ≠ 0) (hbl : s.clientsBlockedDueToQps = l ++ [b]) :
    drainBlockedDueToQps cfg ok s =
      drainBlockedDueToQps cfg ok
        (submit_request cfg ok b { s with clientsBlockedDueToQps := l }).2 := by
  obtain ⟨ph, st, rt, rmin, rmax, rq, cs, ql, bq, qc, qi, trl, trs, cl⟩ := s
  simp only at hbl h1
  subst hbl
  rw [drain_unfold_pos _ _ _ h1 (by simp)]
  simp only [List.getLast_concat, List.dropLast_concat]

theorem mkQpsCounts_length (rand : Nat → Nat) (nqps : Nat) :
    (mkQpsCounts rand nqps).length = qps_update_per_second := by
  rw [mkQpsCounts]
  have key : ∀ (l : List Nat) (init : List Nat),
      (List.foldl (fun counts q => counts.set (rand q % qps_update_per_second)
        (counts.getD (rand q % qps_update_per_second) 0 + 1)) init l).length = init.length := by
    intro l
    induction l with
    | nil => intro init; rfl
    | cons a t ih => intro init; rw [List.foldl_cons, ih, List.length_set]
  rw [key, List.length_replicate]

/-- C6: the refill tick fires every `qps_update_period_ms = 5` ms over the
`qps_update_per_second = 200`-slot array built by `mkQpsCounts`; on each
tick the current slot's token count is added to `qpsLeft` and the slot
index advances cyclically; the blocked queue is then drained in LIFO order
(back popped first, `submit_request` invoked on each popped client) while
`qpsLeft > 0` and the queue is non-empty, consuming one token and
performing one submission per drained client; with empty `qps_counts` the
budget is set to `INT_MAX`, effectively unbounded. -/
theorem qps_refill_tick_spec (cfg : Config) (ok : Nat → Bool) (s : Sys)
    (hq : cfg.is_qps_mode = true) :
    qps_update_period_ms = 5 ∧
    qps_update_per_second = 200 ∧
    (∀ rand nqps, (mkQpsCounts rand nqps).length = qps_update_per_second) ∧
    (∀ (l : List Nat) (b : Nat) (t : Sys),
      t.qpsLeft ≠ 0 → t.clientsBlockedDueToQps = l ++ [b] →
      drainBlockedDueToQps cfg ok t =
        drainBlockedDueToQps cfg ok
          (submit_request cfg ok b { t with clientsBlockedDueToQps := l }).2) ∧
    (s.qps_counts ≠ [] →
      (update_worker_qpsLeft cfg ok s).qps_count_index
          = (s.qps_count_index + 1) % s.qps_counts.length ∧
      (update_worker_qpsLeft cfg ok s).qpsLeft
          = (s.qpsLeft + s.qps_counts.getD s.qps_count_index 0)
            - min (s.qpsLeft + s.qps_counts.getD s.qps_count_index 0)
                  s.clientsBlockedDueToQps.length ∧
      (update_worker_qpsLeft cfg ok s).clientsBlockedDueToQps
          = s.clientsBlockedDueToQps.take (s.clientsBlockedDueToQps.length
              - min (s.qpsLeft + s.qps_counts.getD s.qps_count_index 0)
                    s.clientsBlockedDueToQps.length) ∧
      (update_worker_qpsLeft cfg ok s).total_req_send
          = s.total_req_send + min (s.qpsLeft + s.qps_counts.getD s.qps_count_index 0)
                  s.clientsBlockedDueToQps.length) ∧
    (s.qps_counts = [] →
      (update_worker_qpsLeft cfg ok s).qpsLeft
          = intMax - min intMax s.clientsBlockedDueToQps.length ∧
      (update_worker_qpsLeft cfg ok s).clientsBlockedDueToQps
          = s.clientsBlockedDueToQps.take (s.clientsBlockedDueToQps.length
              - min intMax s.clientsBlockedDueToQps.length) ∧
      (update_worker_qpsLeft cfg ok s).total_req_send
          = s.total_req_send + min intMax s.clientsBlockedDueToQps.length) := by
  have H := fun (t : Sys) =>
    drain_spec cfg ok hq t.clientsBlockedDueToQps.length t (Nat.le_refl _)
  refine ⟨rfl, rfl, mkQpsCounts_length, fun l b t => drain_lifo cfg ok t l b, ?_, ?_⟩
  · intro hne
    simp only [update_worker_qpsLeft, if_pos hne]
    exact ⟨(H _).2.2.2.2.1, (H _).1, (H _).2.1, (H _).2.2.1⟩
  · intro hnil
    have hni : ¬(s.qps_counts ≠ []) := by simp [hnil]
    simp only [update_worker_qpsLeft, if_neg hni]
    exact ⟨(H _).1, (H _).2.1, (H _).2.2.1⟩

theorem qps_refill_tick_spec_witness :
    qps_update_period_ms = 5 ∧
    (update_worker_qpsLeft cfgQps okAll sysQps).qpsLeft
      = (sysQps.qpsLeft + sysQps.qps_counts.getD sysQps.qps_count_index 0)
        - min (sysQps.qpsLeft + sysQps.qps_counts.getD sysQps.qps_count_index 0)
              sysQps.clientsBlockedDueToQps.length := by
  have h := qps_refill_tick_spec cfgQps okAll sysQps rfl
  exact ⟨h.1, (h.2.2.2.2.1 (by decide)).2.1⟩

/-! ### C7: validity of the warm-up assertions -/

theorem counters_getD (l : List ClientState) (i : Nat)
    (h : ∀ c ∈ l, countersZero c) : countersZero (l.getD i clientInit) := by
  rw [List.getD_eq_getElem?_getD]
  cases hx : l[i]? with
  | none => exact ⟨rfl, rfl, rfl⟩
  | some c => exact h c (List.getElem?_mem hx)

theorem countersZero_mem_set (l : List ClientState) (i : Nat) (c : ClientState)
    (hl : ∀ x ∈ l, countersZero x) (hc : countersZero c) :
    ∀ x ∈ l.set i c, countersZero x := by
  intro x hx
  rcases List.mem_or_eq_of_mem_set hx with h | h
  · exact hl x h
  · subst h
    exact hc

theorem submit_request_phase (cfg : Config) (ok : Nat → Bool) (i : Nat) (t : Sys) :
    (submit_request cfg ok i t).2.current_phase = t.current_phase := by
  simp only [submit_request, submit_request_rest]
  split_ifs <;> rfl

theorem submit_request_blocked_of_qpsLeft_ne (cfg : Config) (ok : Nat → Bool)
    (j : Nat) (t : Sys) (h0 : t.qpsLeft ≠ 0) :
    (submit_request cfg ok j t).2.clientsBlockedDueToQps = t.clientsBlockedDueToQps := by
  simp only [submit_request, submit_request_rest]
  split_ifs <;> simp_all

theorem submit_request_nonmain (cfg : Config) (ok : Nat → Bool) (i : Nat) (t : Sys)
    (h : t.current_phase ≠ Phase.MAIN_DURATION) :
    (submit_request cfg ok i t).2.stats = t.stats ∧
    (submit_request cfg ok i t).2.clients = t.clients := by
  simp only [submit_request, submit_request_rest]
  split_ifs <;> simp_all

theorem stream_close_rest_phase (cfg : Config) (ok : Nat → Bool) (i : Nat)
    (sid : Int) (fin : Bool) (t : Sys) :
    (stream_close_rest cfg ok i sid fin t).current_phase = t.current_phase := by
  simp only [stream_close_rest, terminate_session, process_request_failure, ite_self]
  split_ifs
  · rfl
  · exact submit_request_phase cfg ok i _
  · rfl

theorem stream_close_rest_nonmain (cfg : Config) (ok : Nat → Bool) (i : Nat)
    (sid : Int) (fin : Bool) (t : Sys)
    (hph : t.current_phase ≠ Phase.MAIN_DURATION)
    (hz : ∀ c ∈ t.clients, countersZero c) :
    (stream_close_rest cfg ok i sid fin t).stats = t.stats ∧
    ∀ c ∈ (stream_close_rest cfg ok i sid fin t).clients, countersZero c := by
  have hc' : countersZero ({ clientOf t i with
      streams := mapErase (clientOf t i).streams sid } : ClientState) :=
    counters_getD t.clients i hz
  have hz1 : ∀ c ∈ (setClientAt t i { clientOf t i with
      streams := mapErase (clientOf t i).streams sid }).clients, countersZero c :=
    countersZero_mem_set _ _ _ hz hc'
  have hph1 : (setClientAt t i { clientOf t i with
      streams := mapErase (clientOf t i).streams sid }).current_phase
      ≠ Phase.MAIN_DURATION := hph
  have hsub := submit_request_nonmain cfg ok i (setClientAt t i { clientOf t i with
      streams := mapErase (clientOf t i).streams sid }) hph1
  simp only [stream_close_rest, terminate_session, process_request_failure, ite_self]
  split_ifs
  · exact ⟨rfl, countersZero_mem_set _ _ _ hz1 (counters_getD _ _ hz1)⟩
  · refine ⟨hsub.1, ?_⟩
    show ∀ c ∈ (submit_request cfg ok i (setClientAt t i { clientOf t i with
        streams := mapErase (clientOf t i).streams sid })).2.clients, countersZero c
    rw [hsub.2]
    exact hz1
  · exact ⟨rfl, hz1⟩

theorem on_stream_close_phase (cfg : Config) (ok : Nat → Bool) (now i : Nat)
    (sid : Int) (success fin : Bool) (s : Sys) :
    (on_stream_close cfg ok now i sid success fin s).current_phase = s.current_phase := by
  simp only [on_stream_close]
  split
  · split
    · rfl
    · rw [stream_close_rest_phase]
  · rw [stream_close_rest_phase]

theorem on_stream_close_nonmain (cfg : Config) (ok : Nat → Bool) (now i : Nat)
    (sid : Int) (success fin : Bool) (s : Sys)
    (hph : s.current_phase ≠ Phase.MAIN_DURATION)
    (hz : ∀ c ∈ s.clients, countersZero c) :
    (on_stream_close cfg ok now i sid success fin s).stats = s.stats ∧
    ∀ c ∈ (on_stream_close cfg ok now i sid success fin s).clients, countersZero c := by
  rw [on_stream_close, if_neg hph]
  exact stream_close_rest_nonmain cfg ok i sid fin s hph hz

theorem process_abandoned_nonmain (i : Nat) (t : Sys)
    (hph : t.current_phase ≠ Phase.MAIN_DURATION) :
    process_abandoned_streams i t = t := by
  rw [process_abandoned_streams, if_pos hph]

theorem process_timedout_nonmain (now i : Nat) (t : Sys)
    (hph : t.current_phase ≠ Phase.MAIN_DURATION) :
    process_timedout_streams now i t = t := by
  rw [process_timedout_streams, if_pos hph]

theorem on_status_code_invp (i : Nat) (sid : Int) (status : Nat) (t : Sys)
    (hph : t.current_phase ≠ Phase.MAIN_DURATION)
    (hz : ∀ c ∈ t.clients, countersZero c) :
    (on_status_code i sid status t).current_phase = t.current_phase ∧
    (on_status_code i sid status t).stats.req_started = t.stats.req_started ∧
    (on_status_code i sid status t).stats.req_done = t.stats.req_done ∧
    ∀ c ∈ (on_status_code i sid status t).clients, countersZero c := by
  simp only [on_status_code]
  split
  · exact ⟨rfl, rfl, rfl, hz⟩
  · rw [if_pos hph]
    exact ⟨rfl, rfl, rfl, countersZero_mem_set _ _ _ hz (counters_getD _ _ hz)⟩

theorem on_sofarpc_status_invp (i : Nat) (sid : Int) (status : Nat) (t : Sys)
    (hph : t.current_phase ≠ Phase.MAIN_DURATION)
    (hz : ∀ c ∈ t.clients, countersZero c) :
    (on_sofarpc_status i sid status t).current_phase = t.current_phase ∧
    (on_sofarpc_status i sid status t).stats.req_started = t.stats.req_started ∧
    (on_sofarpc_status i sid status t).stats.req_done = t.stats.req_done ∧
    ∀ c ∈ (on_sofarpc_status i sid status t).clients, countersZero c := by
  simp only [on_sofarpc_status]
  split
  · exact ⟨rfl, rfl, rfl, hz⟩
  · rw [if_pos hph]
    exact ⟨rfl, rfl, rfl, countersZero_mem_set _ _ _ hz (counters_getD _ _ hz)⟩

theorem on_header_invp (i : Nat) (sid : Int) (isStatus : Bool) (value : List Nat)
    (t : Sys) (hph : t.current_phase ≠ Phase.MAIN_DURATION)
    (hz : ∀ c ∈ t.clients, countersZero c) :
    (on_header i sid isStatus value t).current_phase = t.current_phase ∧
    (on_header i sid isStatus value t).stats.req_started = t.stats.req_started ∧
    (on_header i sid isStatus value t).stats.req_done = t.stats.req_done ∧
    ∀ c ∈ (on_header i sid isStatus value t).clients, countersZero c := by
  simp only [on_header]
  split
  · exact ⟨rfl, rfl, rfl, hz⟩
  · rw [if_pos hph]
    exact ⟨rfl, rfl, rfl, countersZero_mem_set _ _ _ hz (counters_getD _ _ hz)⟩

theorem drain_nonmain (cfg : Config) (ok : Nat → Bool) :
    ∀ (N : Nat) (t : Sys), t.clientsBlockedDueToQps.length ≤ N →
      t.current_phase ≠ Phase.MAIN_DURATION →
      (drainBlockedDueToQps cfg ok t).current_phase = t.current_phase ∧
      (drainBlockedDueToQps cfg ok t).stats = t.stats ∧
      (drainBlockedDueToQps cfg ok t).clients = t.clients := by
  intro N
  induction N with
  | zero =>
    intro t hlen hph
    rw [drain_unfold_neg cfg ok t
      (by simp [List.eq_nil_of_length_eq_zero (Nat.le_zero.mp hlen)])]
    exact ⟨rfl, rfl, rfl⟩
  | succ N ih =>
    intro t hlen hph
    by_cases hc : t.qpsLeft ≠ 0 ∧ t.clientsBlockedDueToQps ≠ []
    · obtain ⟨h1, h2⟩ := hc
      have hL : 0 < t.clientsBlockedDueToQps.length := List.length_pos.mpr h2
      rw [drain_unfold_pos cfg ok t h1 h2]
      have hph0 : ({ t with clientsBlockedDueToQps := t.clientsBlockedDueToQps.dropLast }
          : Sys).current_phase ≠ Phase.MAIN_DURATION := hph
      have hsub := submit_request_nonmain cfg ok (t.clientsBlockedDueToQps.getLast h2)
        { t with clientsBlockedDueToQps := t.clientsBlockedDueToQps.dropLast } hph0
      have hphs := submit_request_phase cfg ok (t.clientsBlockedDueToQps.getLast h2)
        { t with clientsBlockedDueToQps := t.clientsBlockedDueToQps.dropLast }
      have hbl := submit_request_blocked_of_qpsLeft_ne cfg ok
        (t.clientsBlockedDueToQps.getLast h2)
        { t with clientsBlockedDueToQps := t.clientsBlockedDueToQps.dropLast } h1
      have hlen1 : (submit_request cfg ok (t.clientsBlockedDueToQps.getLast h2)
          { t with clientsBlockedDueToQps := t.clientsBlockedDueToQps.dropLast
          }).2.clientsBlockedDueToQps.length ≤ N := by
        rw [hbl]
        simp only [List.length_dropLast]
        omega
      have hph1 : (submit_request cfg ok (t.clientsBlockedDueToQps.getLast h2)
          { t with clientsBlockedDueToQps := t.clientsBlockedDueToQps.dropLast
          }).2.current_phase ≠ Phase.MAIN_DURATION := by
        rw [hphs]
        exact hph
      have H := ih _ hlen1 hph1
      exact ⟨H.1.trans hphs, H.2.1.trans hsub.1, H.2.2.trans hsub.2⟩
    · rw [drain_unfold_neg cfg ok t hc]
      exact ⟨rfl, rfl, rfl⟩

theorem process_abandoned_phase (i : Nat) (t : Sys) :
    (process_abandoned_streams i t).current_phase = t.current_phase := by
  rw [process_abandoned_streams]
  split_ifs <;> rfl

theorem process_timedout_phase (now i : Nat) (t : Sys) :
    (process_timedout_streams now i t).current_phase = t.current_phase := by
  rw [process_timedout_streams]
  split_ifs
  · rfl
  · rw [process_abandoned_phase]
    rfl

theorem drain_phase (cfg : Config) (ok : Nat → Bool) :
    ∀ (N : Nat) (t : Sys), t.clientsBlockedDueToQps.length ≤ N →
      (drainBlockedDueToQps cfg ok t).current_phase = t.current_phase := by
  intro N
  induction N with
  | zero =>
    intro t hlen
    rw [drain_unfold_neg cfg ok t
      (by simp [List.eq_nil_of_length_eq_zero (Nat.le_zero.mp hlen)])]
  | succ N ih =>
    intro t hlen
    by_cases hc : t.qpsLeft ≠ 0 ∧ t.clientsBlockedDueToQps ≠ []
    · obtain ⟨h1, h2⟩ := hc
      have hL : 0 < t.clientsBlockedDueToQps.length := List.length_pos.mpr h2
      rw [drain_unfold_pos cfg ok t h1 h2]
      have hbl := submit_request_blocked_of_qpsLeft_ne cfg ok
        (t.clientsBlockedDueToQps.getLast h2)
        { t with clientsBlockedDueToQps := t.clientsBlockedDueToQps.dropLast } h1
      have hlen1 : (submit_request cfg ok (t.clientsBlockedDueToQps.getLast h2)
          { t with clientsBlockedDueToQps := t.clientsBlockedDueToQps.dropLast
          }).2.clientsBlockedDueToQps.length ≤ N := by
        rw [hbl]
        simp only [List.length_dropLast]
        omega
      rw [ih _ hlen1, submit_request_phase]
    · rw [drain_unfold_neg cfg ok t hc]

theorem connect_client_phase (cfg : Config) (now : Nat) (sk : Bool) (ph : Phase)
    (c : ClientState) :
    (connect_client cfg now sk ph c).2.1 = ph ∨
    ((connect_client cfg now sk ph c).2.1 = Phase.WARM_UP ∧ ph = Phase.INITIAL_IDLE) := by
  simp only [connect_client]
  split_ifs <;> first
    | exact Or.inl rfl
    | exact Or.inr ⟨rfl, by assumption⟩

theorem connect_client_counters (cfg : Config) (now : Nat) (sk : Bool) (ph : Phase)
    (c : ClientState) (h : countersZero c) :
    countersZero (connect_client cfg now sk ph c).2.2 := by
  simp only [connect_client]
  split_ifs <;> exact h

/-- One event-loop callback preserves the warm-up invariant: while the
phase is still `INITIAL_IDLE` or `WARM_UP`, no request counter has moved. -/
theorem warmupInv_step (cfg : Config) (ok : Nat → Bool) (s : Sys) (e : Event)
    (hI : (s.current_phase = Phase.INITIAL_IDLE ∨ s.current_phase = Phase.WARM_UP) →
      s.stats.req_started = 0 ∧ s.stats.req_done = 0 ∧ ∀ c ∈ s.clients, countersZero c) :
    ((stepSys cfg ok s e).current_phase = Phase.INITIAL_IDLE ∨
      (stepSys cfg ok s e).current_phase = Phase.WARM_UP) →
    (stepSys cfg ok s e).stats.req_started = 0 ∧
    (stepSys cfg ok s e).stats.req_done = 0 ∧
    ∀ c ∈ (stepSys cfg ok s e).clients, countersZero c := by
  cases e with
  | submitEv i =>
    intro hph'
    simp only [stepSys] at hph' ⊢
    rw [submit_request_phase] at hph'
    have hz := hI hph'
    have hnm : s.current_phase ≠ Phase.MAIN_DURATION := by
      rcases hph' with h | h <;> simp [h]
    have hsub := submit_request_nonmain cfg ok i s hnm
    rw [hsub.1, hsub.2]
    exact hz
  | requestEv i sid =>
    intro hph'
    simp only [stepSys, on_request] at hph' ⊢
    have hz := hI hph'
    exact ⟨hz.1, hz.2.1, countersZero_mem_set _ _ _ hz.2.2 (counters_getD _ _ hz.2.2)⟩
  | headerEv i sid isStatus value =>
    intro hph'
    simp only [stepSys] at hph' ⊢
    have hphpres : (on_header i sid isStatus value s).current_phase = s.current_phase := by
      simp only [on_header]
      split
      · rfl
      · split_ifs <;> try rfl
        all_goals
          split <;> first
            | rfl
            | (split_ifs <;> rfl)
    rw [hphpres] at hph'
    have hnm : s.current_phase ≠ Phase.MAIN_DURATION := by
      rcases hph' with h | h <;> simp [h]
    have hz := hI hph'
    have H := on_header_invp i sid isStatus value s hnm hz.2.2
    exact ⟨H.2.1.trans hz.1, H.2.2.1.trans hz.2.1, H.2.2.2⟩
  | statusCodeEv i sid status =>
    intro hph'
    simp only [stepSys] at hph' ⊢
    have hphpres : (on_status_code i sid status s).current_phase = s.current_phase := by
      simp only [on_status_code]
      split
      · rfl
      · split_ifs <;> rfl
    rw [hphpres] at hph'
    have hnm : s.current_phase ≠ Phase.MAIN_DURATION := by
      rcases hph' with h | h <;> simp [h]
    have hz := hI hph'
    have H := on_status_code_invp i sid status s hnm hz.2.2
    exact ⟨H.2.1.trans hz.1, H.2.2.1.trans hz.2.1, H.2.2.2⟩
  | sofaStatusEv i sid status =>
    intro hph'
    simp only [stepSys] at hph' ⊢
    have hphpres : (on_sofarpc_status i sid status s).current_phase = s.current_phase := by
      simp only [on_sofarpc_status]
      split
      · rfl
      · split_ifs <;> rfl
    rw [hphpres] at hph'
    have hnm : s.current_phase ≠ Phase.MAIN_DURATION := by
      rcases hph' with h | h <;> simp [h]
    have hz := hI hph'
    have H := on_sofarpc_status_invp i sid status s hnm hz.2.2
    exact ⟨H.2.1.trans hz.1, H.2.2.1.trans hz.2.1, H.2.2.2⟩
  | streamCloseEv now i sid success fin =>
    intro hph'
    simp only [stepSys] at hph' ⊢
    rw [on_stream_close_phase] at hph'
    have hnm : s.current_phase ≠ Phase.MAIN_DURATION := by
      rcases hph' with h | h <;> simp [h]
    have hz := hI hph'
    have H := on_stream_close_nonmain cfg ok now i sid success fin s hnm hz.2.2
    rw [H.1]
    exact ⟨hz.1, hz.2.1, H.2⟩
  | connectEv now i socketOk =>
    intro hph'
    simp only [stepSys, connect_client] at hph' ⊢
    split_ifs at hph' ⊢ <;>
      first
        | (have hz := hI hph'
           exact ⟨hz.1, hz.2.1,
             countersZero_mem_set _ _ _ hz.2.2 (counters_getD _ _ hz.2.2)⟩)
        | (have hz := hI (Or.inl (by assumption))
           exact ⟨hz.1, hz.2.1,
             countersZero_mem_set _ _ _ hz.2.2 (counters_getD _ _ hz.2.2)⟩)
  | failEv now i =>
    intro hph'
    simp only [stepSys, fail_client] at hph' ⊢
    rw [process_abandoned_phase] at hph'
    have hph2 : s.current_phase = Phase.INITIAL_IDLE ∨ s.current_phase = Phase.WARM_UP := hph'
    have hz := hI hph2
    have hnm : s.current_phase ≠ Phase.MAIN_DURATION := by
      rcases hph2 with h | h <;> simp [h]
    have hnm1 : (setClientAt s i (disconnect_client now (clientOf s i))).current_phase
        ≠ Phase.MAIN_DURATION := hnm
    rw [process_abandoned_nonmain i _ hnm1]
    exact ⟨hz.1, hz.2.1, countersZero_mem_set _ _ _ hz.2.2 (counters_getD _ _ hz.2.2)⟩
  | tryAgainEv now i socketOk =>
    intro hph'
    simp only [stepSys, try_again_or_fail] at hph' ⊢
    split_ifs at hph' ⊢ with h1 h2 h3 h4 h5
    case _ =>
      -- new connection requested, budget left, MAIN phase, connect succeeded
      rcases connect_client_phase cfg now socketOk s.current_phase _ with hA | hA
      · rw [hA, h3] at hph'
        have hph2 : Phase.MAIN_DURATION = Phase.INITIAL_IDLE ∨
            Phase.MAIN_DURATION = Phase.WARM_UP := hph'
        rcases hph2 with h | h <;> exact absurd h (by decide)
      · exact absurd (h3.symm.trans hA.2) (by decide)
    case _ =>
      -- as above but connect failed: abandoned streams processed
      rw [process_abandoned_phase] at hph'
      rcases connect_client_phase cfg now socketOk s.current_phase _ with hA | hA
      · rw [hA, h3] at hph'
        have hph2 : Phase.MAIN_DURATION = Phase.INITIAL_IDLE ∨
            Phase.MAIN_DURATION = Phase.WARM_UP := hph'
        rcases hph2 with h | h <;> exact absurd h (by decide)
      · exact absurd (h3.symm.trans hA.2) (by decide)
    case _ =>
      -- non-MAIN phase, connect succeeded
      rcases connect_client_phase cfg now socketOk s.current_phase _ with hA | hA
      · rw [hA] at hph'
        have hph2 : s.current_phase = Phase.INITIAL_IDLE ∨
            s.current_phase = Phase.WARM_UP := hph'
        have hz := hI hph2
        exact ⟨hz.1, hz.2.1, countersZero_mem_set _ _ _ hz.2.2
          (connect_client_counters _ _ _ _ _ (counters_getD _ _ hz.2.2))⟩
      · have hz := hI (Or.inl hA.2)
        exact ⟨hz.1, hz.2.1, countersZero_mem_set _ _ _ hz.2.2
          (connect_client_counters _ _ _ _ _ (counters_getD _ _ hz.2.2))⟩
    case _ =>
      -- non-MAIN phase, connect failed: abandoned streams processed (no-op)
      rw [process_abandoned_phase] at hph'
      rcases connect_client_phase cfg now socketOk s.current_phase _ with hA | hA
      · rw [hA] at hph'
        have hph2 : s.current_phase = Phase.INITIAL_IDLE ∨
            s.current_phase = Phase.WARM_UP := hph'
        have hz := hI hph2
        have hnm : s.current_phase ≠ Phase.MAIN_DURATION := by
          rcases hph2 with h | h <;> simp [h]
        rw [process_abandoned_nonmain i]
        · exact ⟨hz.1, hz.2.1, countersZero_mem_set _ _ _ hz.2.2
            (connect_client_counters _ _ _ _ _ (counters_getD _ _ hz.2.2))⟩
        · rw [hA]
          exact hnm
      · have hz := hI (Or.inl hA.2)
        rw [process_abandoned_nonmain i]
        · exact ⟨hz.1, hz.2.1, countersZero_mem_set _ _ _ hz.2.2
            (connect_client_counters _ _ _ _ _ (counters_getD _ _ hz.2.2))⟩
        · rw [hA.1]
          exact (by decide : Phase.WARM_UP ≠ Phase.MAIN_DURATION)
    case _ =>
      -- new connection requested but budget exhausted
      rw [process_abandoned_phase] at hph'
      have hph2 : s.current_phase = Phase.INITIAL_IDLE ∨
          s.current_phase = Phase.WARM_UP := hph'
      have hz := hI hph2
      have hnm : s.current_phase ≠ Phase.MAIN_DURATION := by
        rcases hph2 with h | h <;> simp [h]
      rw [process_abandoned_nonmain i]
      · exact ⟨hz.1, hz.2.1, countersZero_mem_set _ _ _ hz.2.2 (counters_getD _ _ hz.2.2)⟩
      · exact hnm
    case _ =>
      -- no new connection requested
      rw [process_abandoned_phase] at hph'
      have hph2 : s.current_phase = Phase.INITIAL_IDLE ∨
          s.current_phase = Phase.WARM_UP := hph'
      have hz := hI hph2
      have hnm : s.current_phase ≠ Phase.MAIN_DURATION := by
        rcases hph2 with h | h <;> simp [h]
      rw [process_abandoned_nonmain i]
      · exact ⟨hz.1, hz.2.1, countersZero_mem_set _ _ _ hz.2.2 (counters_getD _ _ hz.2.2)⟩
      · exact hnm
  | timeoutEv now i =>
    intro hph'
    simp only [stepSys, client_timeout] at hph' ⊢
    have hph1 : (process_timedout_streams now i s).current_phase = Phase.INITIAL_IDLE ∨
        (process_timedout_streams now i s).current_phase = Phase.WARM_UP := hph'
    rw [process_timedout_phase] at hph1
    have hnm : s.current_phase ≠ Phase.MAIN_DURATION := by
      rcases hph1 with h | h <;> simp [h]
    rw [process_timedout_nonmain now i s hnm]
    have hz := hI hph1
    exact ⟨hz.1, hz.2.1, countersZero_mem_set _ _ _ hz.2.2 (counters_getD _ _ hz.2.2)⟩
  | warmupEv now =>
    intro hph'
    simp only [stepSys, warmup_timeout_cb] at hph'
    rcases hph' with h | h <;> exact absurd h (by decide)
  | durationEv now =>
    intro hph'
    simp only [stepSys, duration_timeout_cb, stop_all_clients] at hph'
    rcases hph' with h | h <;> exact absurd h (by decide)
  | tickEv =>
    intro hph'
    simp only [stepSys, update_worker_qpsLeft] at hph' ⊢
    split_ifs at hph' ⊢ with hqc
    · rw [drain_phase cfg ok _ _ (Nat.le_refl _)] at hph'
      have hz := hI hph'
      have hnm1 : ({ s with
          qpsLeft := s.qpsLeft + s.qps_counts.getD s.qps_count_index 0,
          qps_count_index := (s.qps_count_index + 1) % s.qps_counts.length }
          : Sys).current_phase ≠ Phase.MAIN_DURATION := by
        rcases hph' with h | h <;> simp [show s.current_phase = _ from h]
      have H := drain_nonmain cfg ok _ _ (Nat.le_refl _) hnm1
      rw [H.2.1, H.2.2]
      exact hz
    · rw [drain_phase cfg ok _ _ (Nat.le_refl _)] at hph'
      have hz := hI hph'
      have hnm1 : ({ s with qpsLeft := intMax } : Sys).current_phase
          ≠ Phase.MAIN_DURATION := by
        rcases hph' with h | h <;> simp [show s.current_phase = _ from h]
      have H := drain_nonmain cfg ok _ _ (Nat.le_refl _) hnm1
      rw [H.2.1, H.2.2]
      exact hz

/-- C7: the assertions in `warmup_timeout_cb` (h2load.cc:176-183) are
valid: in every reachable worker state whose phase is still
`INITIAL_IDLE` or `WARM_UP` — in particular at the moment the warm-up
timer fires in `WARM_UP` — `stats.req_started` and `stats.req_done` are
zero and every client has `req_inflight = req_started = req_done = 0`,
because `submit_request` and `on_stream_close` only move these counters
when the phase is `MAIN_DURATION`. -/
theorem warmup_assertions_valid (cfg : Config) (ok : Nat → Bool) (s : Sys)
    (hr : Reachable cfg ok s)
    (hph : s.current_phase = Phase.INITIAL_IDLE ∨ s.current_phase = Phase.WARM_UP) :
    s.stats.req_started = 0 ∧ s.stats.req_done = 0 ∧
    ∀ c ∈ s.clients, c.req_inflight = 0 ∧ c.req_started = 0 ∧ c.req_done = 0 := by
  have key : ∀ t : Sys, Reachable cfg ok t →
      (t.current_phase = Phase.INITIAL_IDLE ∨ t.current_phase = Phase.WARM_UP) →
      t.stats.req_started = 0 ∧ t.stats.req_done = 0 ∧ ∀ c ∈ t.clients, countersZero c := by
    intro t hrt
    induction hrt with
    | start qc =>
      intro _
      refine ⟨rfl, rfl, ?_⟩
      intro c hc
      rw [List.eq_of_mem_replicate hc]
      exact ⟨rfl, rfl, rfl⟩
    | next e _ ih => exact warmupInv_step cfg ok _ e ih
  exact key s hr hph

theorem warmup_assertions_valid_witness :
    sysWarm.current_phase = Phase.WARM_UP ∧
    sysWarm.stats.req_started = 0 ∧ sysWarm.stats.req_done = 0 ∧
    ∀ c ∈ sysWarm.clients, c.req_inflight = 0 ∧ c.req_started = 0 ∧ c.req_done = 0 := by
  have hr : Reachable cfgPlainDuration okAll sysWarm :=
    Reachable.next (Event.connectEv 3 0 true) (Reachable.start [])
  exact ⟨rfl, warmup_assertions_valid cfgPlainDuration okAll sysWarm hr (Or.inr rfl)⟩

end h2load

